import Mathlib

/-!
Verification development for the Solace alert-management backend.

Shallow embedding of the ingestion and incident pipeline:
timestamps are modelled as `Int` seconds since the Unix epoch (each
Python `datetime.now(UTC)` call inside one operation is modelled as a
single `now` parameter), database tables as Lean lists inside a `Store`
structure, Python dicts as association lists `List (String × String)`
(insertion-ordered, unique keys), and fallible Python code as `Except`.
Machine words in SHA-256 are `Nat` reduced with `% 2 ^ 32`.
-/

namespace Solace

/-- Canonical severity enum (`backend/models`): `info < low < warning < high < critical`. -/
inductive Severity where
  | info
  | low
  | warning
  | high
  | critical
deriving DecidableEq, Repr

/-- The stored lowercase string of a severity (Python `Severity.value`). -/
def Severity.value : Severity → String
  | .info => "info"
  | .low => "low"
  | .warning => "warning"
  | .high => "high"
  | .critical => "critical"

/-- Alert status enum (`backend/models`). -/
inductive AlertStatus where
  | firing
  | acknowledged
  | resolved
  | suppressed
  | archived
deriving DecidableEq, Repr

/-- Incident status enum (`backend/models`). -/
inductive IncidentStatus where
  | open
  | acknowledged
  | resolved
deriving DecidableEq, Repr

/-!
### Fingerprinting (`backend/core/fingerprint.py`)

`generate_fingerprint` serializes an identity dict with
`json.dumps(identity, sort_keys=True, separators=(",", ":"))`, hashes the
UTF-8 bytes with SHA-256 and keeps the first 16 hex characters.  The JSON
serializer below reproduces `json.dumps` with its default
`ensure_ascii=True` escaping; SHA-256 is implemented in full.
-/

/-- The double-quote character, written via its code point. -/
def qChar : Char := Char.ofNat 34

/-- The backslash character, written via its code point. -/
def bsChar : Char := Char.ofNat 92

/-- The opening curly brace character. -/
def obChar : Char := Char.ofNat 123

/-- The closing curly brace character. -/
def cbChar : Char := Char.ofNat 125

/-- The lowercase hex digit character for a value below 16: the ASCII
digits for 0-9 and the letters a-f above. -/
def hexChar (n : Nat) : Char :=
  if n < 10 then Char.ofNat (48 + n) else Char.ofNat (87 + n)

/-- Lowercase hexadecimal digits, in value order. -/
def hexDigitChars : List Char := (List.range 16).map hexChar

/-- Four-digit lowercase hex rendering of a value below 65536 (for JSON escapes). -/
def u4hex (n : Nat) : List Char :=
  [hexChar (n / 4096 % 16), hexChar (n / 256 % 16), hexChar (n / 16 % 16), hexChar (n % 16)]

/-- Escape one character the way `json.dumps` (default `ensure_ascii=True`) does:
quote and backslash get two-character escapes, the named control characters get
short escapes, other characters outside printable ASCII become (pairs of)
unicode escapes. -/
def escapeChar (c : Char) : List Char :=
  if c = qChar then [bsChar, qChar]
  else if c = bsChar then [bsChar, bsChar]
  else if c = Char.ofNat 10 then [bsChar, 'n']
  else if c = Char.ofNat 13 then [bsChar, 'r']
  else if c = Char.ofNat 9 then [bsChar, 't']
  else if c = Char.ofNat 8 then [bsChar, 'b']
  else if c = Char.ofNat 12 then [bsChar, 'f']
  else if 32 ≤ c.toNat ∧ c.toNat ≤ 126 then [c]
  else if c.toNat < 65536 then bsChar :: 'u' :: u4hex c.toNat
  else
    (bsChar :: 'u' :: u4hex (55296 + (c.toNat - 65536) / 1024)) ++
      (bsChar :: 'u' :: u4hex (56320 + (c.toNat - 65536) % 1024))

/-- JSON string literal for `s`, as a character list. -/
def jsonStr (s : String) : List Char :=
  qChar :: (s.data.map escapeChar).flatten ++ [qChar]

/-- One `"key":value` JSON object member where the value is already rendered. -/
def jsonMember (key : String) (value : List Char) : List Char :=
  jsonStr key ++ ':' :: value

/-- A JSON object from already-rendered members, with `separators=(",", ":")`. -/
def jsonObj (members : List (List Char)) : List Char :=
  obChar :: (List.intercalate [','] members) ++ [cbChar]

/-- Python `x or ""` on an optional string (both `None` and `""` give `""`). -/
def pyOrEmpty (o : Option String) : String := o.getD ""

/-- The volatile label keys filtered out of the fingerprint identity
(`fingerprint.py` line 45). -/
def volatile_keys : List String :=
  ["timestamp", "value", "description", "summary", "generatorURL"]

/-- The order in which Python `sorted(labels.items())` arranges label pairs:
lexicographic on the (key, value) tuple, strings compared by code points. -/
def itemLe (a b : String × String) : Prop :=
  a.1.data < b.1.data ∨ (a.1.data = b.1.data ∧ a.2.data ≤ b.2.data)

instance : DecidableRel itemLe := fun a b =>
  decidable_of_iff (a.1.data < b.1.data ∨ (a.1.data = b.1.data ∧ a.2.data ≤ b.2.data)) Iff.rfl

instance : IsTrans (String × String) itemLe where
  trans a b c hab hbc := by
    rcases hab with h1 | ⟨h1, h2⟩ <;> rcases hbc with h3 | ⟨h3, h4⟩
    · exact Or.inl (lt_trans h1 h3)
    · exact Or.inl (h3 ▸ h1)
    · exact Or.inl (h1 ▸ h3)
    · exact Or.inr ⟨h1.trans h3, le_trans h2 h4⟩

instance : IsTotal (String × String) itemLe where
  total a b := by
    rcases lt_trichotomy a.1.data b.1.data with h | h | h
    · exact Or.inl (Or.inl h)
    · rcases le_total a.2.data b.2.data with h2 | h2
      · exact Or.inl (Or.inr ⟨h, h2⟩)
      · exact Or.inr (Or.inr ⟨h.symm, h2⟩)
    · exact Or.inr (Or.inl h)

instance : IsAntisymm (String × String) itemLe where
  antisymm a b hab hba := by
    rcases hab with h1 | ⟨h1, h2⟩ <;> rcases hba with h3 | ⟨h3, h4⟩
    · exact absurd h3 (lt_asymm h1)
    · exact absurd h1 (h3 ▸ lt_irrefl _)
    · exact absurd h3 (h1 ▸ lt_irrefl _)
    · exact Prod.ext (String.ext h1) (String.ext (le_antisymm h2 h4))

/-- Model of Python `sorted(labels.items())`: sorting is by the full
(key, value) pair, a total antisymmetric order, so any correct sort computes
it; we use insertion sort. -/
def sortedItems (labels : List (String × String)) : List (String × String) :=
  List.insertionSort itemLe labels

/-- The filtered, sorted label pairs included in the identity
(`fingerprint.py` line 46). -/
def filteredLabels (labels : List (String × String)) : List (String × String) :=
  (sortedItems labels).filter (fun p => decide (p.1 ∉ volatile_keys))

/-- The canonical JSON text (as characters) of the identity mapping built by
`generate_fingerprint` (`fingerprint.py` lines 35-50).  `json.dumps` with
`sort_keys=True` emits the keys in the order
`"host", "labels", "name", "service", "source"`; the nested labels dict is
already in sorted key order, which `sort_keys` preserves. -/
def canonicalIdentity (source name : String) (service host : Option String)
    (labels : List (String × String)) : List Char :=
  let baseMembers := fun (mid : List (List Char)) =>
    jsonObj ([jsonMember "host" (jsonStr (pyOrEmpty host))] ++ mid ++
      [jsonMember "name" (jsonStr name),
       jsonMember "service" (jsonStr (pyOrEmpty service)),
       jsonMember "source" (jsonStr source)])
  if labels ≠ [] then
    let filtered := filteredLabels labels
    if filtered ≠ [] then
      baseMembers [jsonMember "labels"
        (jsonObj (filtered.map (fun p => jsonMember p.1 (jsonStr p.2))))]
    else baseMembers []
  else baseMembers []

/-- UTF-8 encoding of one character, as byte values. -/
def utf8EncodeChar (c : Char) : List Nat :=
  let n := c.toNat
  if n < 128 then [n]
  else if n < 2048 then [192 + n / 64, 128 + n % 64]
  else if n < 65536 then [224 + n / 4096, 128 + n / 64 % 64, 128 + n % 64]
  else [240 + n / 262144, 128 + n / 4096 % 64, 128 + n / 64 % 64, 128 + n % 64]

/-- UTF-8 encoding of a character list (Python `str.encode()`). -/
def utf8Encode (cs : List Char) : List Nat :=
  (cs.map utf8EncodeChar).flatten

/-!
SHA-256 (FIPS 180-4), over byte lists, with 32-bit words as `Nat % 2 ^ 32`.
-/

/-- Reduce to a 32-bit word. -/
def w32 (n : Nat) : Nat := n % 4294967296

/-- Right rotation of a 32-bit word. -/
def rotr32 (x n : Nat) : Nat := w32 ((x >>> n) ||| (x <<< (32 - n)))

/-- SHA-256 Ch function. -/
def shaCh (x y z : Nat) : Nat := (x &&& y) ^^^ ((4294967295 - x) &&& z)

/-- SHA-256 Maj function. -/
def shaMaj (x y z : Nat) : Nat := (x &&& y) ^^^ (x &&& z) ^^^ (y &&& z)

/-- SHA-256 big sigma 0. -/
def bigSigma0 (x : Nat) : Nat := rotr32 x 2 ^^^ rotr32 x 13 ^^^ rotr32 x 22

/-- SHA-256 big sigma 1. -/
def bigSigma1 (x : Nat) : Nat := rotr32 x 6 ^^^ rotr32 x 11 ^^^ rotr32 x 25

/-- SHA-256 small sigma 0. -/
def smallSigma0 (x : Nat) : Nat := rotr32 x 7 ^^^ rotr32 x 18 ^^^ (x >>> 3)

/-- SHA-256 small sigma 1. -/
def smallSigma1 (x : Nat) : Nat := rotr32 x 17 ^^^ rotr32 x 19 ^^^ (x >>> 10)

/-- The 64 SHA-256 round constants. -/
def sha256K : List Nat :=
  [1116352408, 1899447441, 3049323471, 3921009573, 961987163, 1508970993,
   2453635748, 2870763221, 3624381080, 310598401, 607225278, 1426881987,
   1925078388, 2162078206, 2614888103, 3248222580, 3835390401, 4022224774,
   264347078, 604807628, 770255983, 1249150122, 1555081692, 1996064986,
   2554220882, 2821834349, 2952996808, 3210313671, 3336571891, 3584528711,
   113926993, 338241895, 666307205, 773529912, 1294757372, 1396182291,
   1695183700, 1986661051, 2177026350, 2456956037, 2730485921, 2820302411,
   3259730800, 3345764771, 3516065817, 3600352804, 4094571909, 275423344,
   430227734, 506948616, 659060556, 883997877, 958139571, 1322822218,
   1537002063, 1747873779, 1955562222, 2024104815, 2227730452, 2361852424,
   2428436474, 2756734187, 3204031479, 3329325298]

/-- Eight 32-bit words: a hash state (or the working variables a..h). -/
structure Hash8 where
  h0 : Nat
  h1 : Nat
  h2 : Nat
  h3 : Nat
  h4 : Nat
  h5 : Nat
  h6 : Nat
  h7 : Nat
deriving DecidableEq, Repr

/-- SHA-256 initial hash value. -/
def sha256init : Hash8 :=
  ⟨1779033703, 3144134277, 1013904242, 2773480762,
   1359893119, 2600822924, 528734635, 1541459225⟩

/-- SHA-256 padding: append 0x80, zeros to 56 mod 64, then the 64-bit
big-endian bit length. -/
def sha256pad (msg : List Nat) : List Nat :=
  let L := msg.length
  let zeros := List.replicate ((120 - ((L + 1) % 64)) % 64) 0
  let bl := 8 * L
  msg ++ 128 :: zeros ++
    [bl / 72057594037927936 % 256, bl / 281474976710656 % 256,
     bl / 1099511627776 % 256, bl / 4294967296 % 256,
     bl / 16777216 % 256, bl / 65536 % 256, bl / 256 % 256, bl % 256]

/-- Split a byte list into 64-byte chunks (fuel-based structural recursion;
the fuel is the list length, and every step consumes at least one element). -/
def chunks64Go : Nat → List Nat → List (List Nat)
  | 0, _ => []
  | _, [] => []
  | fuel + 1, b :: rest => (b :: rest).take 64 :: chunks64Go fuel ((b :: rest).drop 64)

/-- Split a byte list into 64-byte chunks. -/
def chunks64 (l : List Nat) : List (List Nat) := chunks64Go l.length l

/-- Big-endian 4-byte groups to 32-bit words. -/
def toWords : List Nat → List Nat
  | b0 :: b1 :: b2 :: b3 :: rest =>
      (b0 * 16777216 + b1 * 65536 + b2 * 256 + b3) :: toWords rest
  | _ => []

/-- Extend the message schedule, keeping the newest word first. -/
def extendWrev (rev : List Nat) : Nat → List Nat
  | 0 => rev
  | fuel + 1 =>
      let nw := w32 (smallSigma1 (rev.getD 1 0) + rev.getD 6 0 +
        smallSigma0 (rev.getD 14 0) + rev.getD 15 0)
      extendWrev (nw :: rev) fuel

/-- The 64-entry message schedule of one block. -/
def sha256ws (block : List Nat) : List Nat :=
  (extendWrev (toWords block).reverse 48).reverse

/-- One SHA-256 compression round on the working variables. -/
def sha256round (st : Hash8) (kw : Nat × Nat) : Hash8 :=
  let t1 := w32 (st.h7 + bigSigma1 st.h4 + shaCh st.h4 st.h5 st.h6 + kw.1 + kw.2)
  let t2 := w32 (bigSigma0 st.h0 + shaMaj st.h0 st.h1 st.h2)
  ⟨w32 (t1 + t2), st.h0, st.h1, st.h2, w32 (st.h3 + t1), st.h4, st.h5, st.h6⟩

/-- Compress one 64-byte block into the running hash. -/
def compressBlock (H : Hash8) (block : List Nat) : Hash8 :=
  let f := ((sha256K.zip (sha256ws block)).foldl sha256round H)
  ⟨w32 (H.h0 + f.h0), w32 (H.h1 + f.h1), w32 (H.h2 + f.h2), w32 (H.h3 + f.h3),
   w32 (H.h4 + f.h4), w32 (H.h5 + f.h5), w32 (H.h6 + f.h6), w32 (H.h7 + f.h7)⟩

/-- Big-endian bytes of a 32-bit word. -/
def wordBytes (w : Nat) : List Nat :=
  [w / 16777216 % 256, w / 65536 % 256, w / 256 % 256, w % 256]

/-- The 32 digest bytes of a final hash state. -/
def digestBytes (H : Hash8) : List Nat :=
  wordBytes H.h0 ++ wordBytes H.h1 ++ wordBytes H.h2 ++ wordBytes H.h3 ++
    wordBytes H.h4 ++ wordBytes H.h5 ++ wordBytes H.h6 ++ wordBytes H.h7

/-- SHA-256 of a byte list. -/
def sha256 (msg : List Nat) : List Nat :=
  digestBytes ((chunks64 (sha256pad msg)).foldl compressBlock sha256init)

/-- Two lowercase hex characters of one byte. -/
def byteHexChars (b : Nat) : List Char := [hexChar (b / 16), hexChar (b % 16)]

/-- Lowercase hex digest characters of a byte list (Python `hexdigest()`). -/
def hexdigest (bytes : List Nat) : List Char :=
  (bytes.map byteHexChars).flatten

/-- `generate_fingerprint` (`backend/core/fingerprint.py`): identity is
`source, name, service, host` plus the filtered sorted labels; `severity` is
a parameter of the function but is not part of the identity.  Returns the
first 16 characters of the SHA-256 hex digest of the canonical JSON. -/
def generate_fingerprint (source name : String) (service host severity : Option String)
    (labels : List (String × String)) : String :=
  String.mk ((hexdigest (sha256 (utf8Encode
    (canonicalIdentity source name service host labels)))).take 16)

/-- `NormalizedAlert` (`backend/integrations/__init__.py`): the transient
internal alert shape, with exactly the attributes `__init__` sets — in
particular no `runbook_url` and no `ticket_url` attribute.
`raw_payload` is an opaque echo of the provider payload and is not modelled;
`__init__` replaces a missing `starts_at` by the construction time. -/
structure NormalizedAlert where
  name : String
  source : String
  severity : String := "warning"
  status : String := "firing"
  description : Option String := none
  service : Option String := none
  environment : Option String := none
  host : Option String := none
  labels : List (String × String) := []
  annotations : List (String × String) := []
  tags : List String := []
  source_instance : Option String := none
  starts_at : Option Int := none
  ends_at : Option Int := none
  generator_url : Option String := none
deriving DecidableEq, Repr

/-- The fingerprint computed in step 1 of `ingest_alert`
(`backend/services/__init__.py` lines 44-50).  The call passes only
`source, name, service, host, labels`; `severity` keeps its default `None`,
and `description`/`annotations` are not passed at all. -/
def ingestFingerprint (n : NormalizedAlert) : String :=
  generate_fingerprint n.source n.name n.service n.host none n.labels

/-!
### Kernel-computable string helpers

Lean core string functions such as `String.toLower` do not reduce inside the
kernel, so the Python string operations used by the normalizers are modelled
directly on the character lists (ASCII range, which is all the relevant
keys and values use).
-/

/-- ASCII lowercase of one character. -/
def asciiLower (c : Char) : Char :=
  if 65 ≤ c.toNat ∧ c.toNat ≤ 90 then Char.ofNat (c.toNat + 32) else c

/-- Python `str.lower()` (modelled on the ASCII range). -/
def pyLower (s : String) : String := String.mk (s.data.map asciiLower)

/-- The whitespace characters Python `str.strip()` removes (ASCII range). -/
def pyIsSpace (c : Char) : Bool :=
  c = ' ' || c = Char.ofNat 9 || c = Char.ofNat 10 || c = Char.ofNat 13 ||
    c = Char.ofNat 11 || c = Char.ofNat 12

/-- Python `str.strip()`. -/
def pyStrip (s : String) : String :=
  String.mk (((s.data.dropWhile pyIsSpace).reverse.dropWhile pyIsSpace).reverse)

/-- Worker for splitting a character list at a separator character. -/
def splitCharGo (sep : Char) (acc : List Char) : List Char → List (List Char)
  | [] => [acc.reverse]
  | c :: cs =>
      if c = sep then acc.reverse :: splitCharGo sep [] cs
      else splitCharGo sep (c :: acc) cs

/-- Python `str.split(sep)` for a one-character separator. -/
def pySplitChar (s : String) (sep : Char) : List String :=
  (splitCharGo sep [] s.data).map String.mk

/-- Whether a string starts with an underscore (Python `str.startswith("_")`). -/
def startsUnderscore (s : String) : Bool :=
  match s.data with
  | c :: _ => c = '_'
  | [] => false

/-- The numeric value of an ASCII digit character. -/
def digitVal? (c : Char) : Option Nat :=
  if 48 ≤ c.toNat ∧ c.toNat ≤ 57 then some (c.toNat - 48) else none

/-- Parse a non-empty all-digit character list as a natural number. -/
def digitsToNat? (cs : List Char) : Option Nat :=
  if cs.isEmpty then none
  else cs.foldl (fun acc c =>
    match acc, digitVal? c with
    | some a, some d => some (a * 10 + d)
    | _, _ => none) (some 0)

/-- Parse an unsigned decimal literal (digits with an optional fractional
part) as an exact rational. -/
def parseUnsignedFloat? (cs : List Char) : Option ℚ :=
  match splitCharGo '.' [] cs with
  | [ip] => (digitsToNat? ip).map (fun n => (n : ℚ))
  | [ip, fp] =>
      if ip.isEmpty && fp.isEmpty then none
      else
        match (if ip.isEmpty then some 0 else digitsToNat? ip),
            (if fp.isEmpty then some 0 else digitsToNat? fp) with
        | some i, some f => some ((i : ℚ) + (f : ℚ) / ((10 : ℚ) ^ fp.length))
        | _, _ => none
  | _ => none

/-- Model of Python `float(raw)` on the decimal literals the integrations
receive (optional sign, digits, optional fractional part; the exotic float
syntaxes — exponents, `inf`, `nan`, underscores — are outside the model).
Returns the exact rational value. -/
def pyFloat? (s : String) : Option ℚ :=
  match s.data with
  | '+' :: rest => parseUnsignedFloat? rest
  | '-' :: rest => (parseUnsignedFloat? rest).map Neg.neg
  | cs => parseUnsignedFloat? cs

/-- Days from the Unix epoch of a proleptic Gregorian date
(Howard Hinnant's days-from-civil algorithm; divisors are positive so
Lean's Euclidean `Int` division is floor division). -/
def daysFromCivil (y : Int) (m d : Nat) : Int :=
  let y2 : Int := if m ≤ 2 then y - 1 else y
  let era : Int := y2 / 400
  let yoe : Int := y2 - era * 400
  let mp : Int := (m : Int) + (if m > 2 then -3 else 9)
  let doy : Int := (153 * mp + 2) / 5 + (d : Int) - 1
  let doe : Int := yoe * 365 + yoe / 4 - yoe / 100 + doy
  era * 146097 + doe - 719468

/-- Epoch seconds of an ISO-8601 timestamp
`YYYY-MM-DD[THH:MM[:SS[.frac]][±HH:MM]]` — the shapes
`datetime.fromisoformat` receives from Alertmanager after `Z` was replaced
by `+00:00`.  Fractional seconds are truncated (sub-second precision is not
modelled); strings outside this shape parse to `none`, matching the
normalizer's `except ValueError` fallback.  Offset-free timestamps are read
as UTC. -/
def fromisoformat? (s : String) : Option Int :=
  let parseTime := fun (t : String) (offSign : Int) (off : Option String) =>
    (match (pySplitChar t ':').map String.data with
      | [hh, mm] => do
          let h ← digitsToNat? hh
          let mi ← digitsToNat? mm
          pure (h * 3600 + mi * 60)
      | [hh, mm, ss] => do
          let h ← digitsToNat? hh
          let mi ← digitsToNat? mm
          let sec ← digitsToNat? ((splitCharGo '.' [] ss).headD [])
          pure (h * 3600 + mi * 60 + sec)
      | _ => none).bind fun daySecs =>
      match off with
      | none => some ((daySecs : Int), (0 : Int))
      | some o =>
          match (pySplitChar o ':').map String.data with
          | [oh, om] => do
              let ohn ← digitsToNat? oh
              let omn ← digitsToNat? om
              pure ((daySecs : Int), offSign * ((ohn : Int) * 3600 + (omn : Int) * 60))
          | _ => none
  let withDate := fun (date : String) (rest : Option (Int × Int)) =>
    match (pySplitChar date '-').map String.data with
    | [yy, mm, dd] => do
        let y ← digitsToNat? yy
        let m ← digitsToNat? mm
        let d ← digitsToNat? dd
        let (daySecs, off) ← rest
        pure (daysFromCivil (y : Int) m d * 86400 + daySecs - off)
    | _ => none
  match pySplitChar s 'T' with
  | [date] => withDate date (some (0, 0))
  | [date, time] =>
      if (time.data.contains '+') then
        match pySplitChar time '+' with
        | [t, o] => withDate date (parseTime t 1 (some o))
        | _ => none
      else if (time.data.contains '-') then
        match pySplitChar time '-' with
        | [t, o] => withDate date (parseTime t (-1) (some o))
        | _ => none
      else withDate date (parseTime time 1 none)
  | _ => none

namespace Prometheus

/-!
### Prometheus Alertmanager normalizer (`backend/integrations/prometheus.py`)
-/

/-- One entry of the `alerts[]` array of an Alertmanager v4 webhook. -/
structure PromAlert where
  status : Option String := none
  labels : List (String × String) := []
  annotations : List (String × String) := []
  startsAt : Option String := none
  endsAt : Option String := none
  generatorURL : Option String := none
deriving DecidableEq, Repr

/-- The Alertmanager webhook payload shape (the fields `normalize` reads). -/
structure PromPayload where
  externalURL : Option String := none
  alerts : List PromAlert := []
deriving DecidableEq, Repr

/-- `SEVERITY_MAP` (`prometheus.py` lines 48-62). -/
def SEVERITY_MAP : List (String × String) :=
  [("critical", "critical"), ("error", "critical"), ("high", "high"),
   ("major", "high"), ("warning", "warning"), ("warn", "warning"),
   ("low", "low"), ("minor", "low"), ("info", "info"),
   ("informational", "info"), ("none", "info"), ("page", "critical"),
   ("ticket", "warning")]

/-- `SEVERITY_LABEL_KEYS` (`prometheus.py` line 65). -/
def SEVERITY_LABEL_KEYS : List String := ["severity", "priority", "level"]

/-- `PROMETHEUS_ZERO_TIME` (`prometheus.py` line 68). -/
def PROMETHEUS_ZERO_TIME : String := "0001-01-01T00:00:00Z"

/-- Replace each `Z` by `+00:00` (the `ts.replace("Z", "+00:00")` cleanup). -/
def cleanZ (s : String) : String :=
  String.mk ((s.data.map (fun c =>
    if c = 'Z' then "+00:00".data else [c])).flatten)

/-- `_parse_timestamp` (`prometheus.py` lines 71-80): `None` for missing,
empty or zero timestamps, else ISO-8601 parsing degrading to `None`. -/
def parse_timestamp (ts : Option String) : Option Int :=
  match ts with
  | none => none
  | some t =>
      if t = "" || t = PROMETHEUS_ZERO_TIME then none
      else fromisoformat? (cleanZ t)

/-- Worker for `_extract_severity`: try the keys in priority order. -/
def extractSevGo (labels : List (String × String)) : List String → String
  | [] => "warning"
  | k :: ks =>
      let value := pyStrip (pyLower ((labels.lookup k).getD ""))
      match SEVERITY_MAP.lookup value with
      | some v => v
      | none => extractSevGo labels ks

/-- `_extract_severity` (`prometheus.py` lines 83-89). -/
def extract_severity (labels : List (String × String)) : String :=
  extractSevGo labels SEVERITY_LABEL_KEYS

/-- First value among the given keys present in the mapping
(the `if key in labels: return labels[key]` loops). -/
def firstKey (labels : List (String × String)) : List String → Option String
  | [] => none
  | k :: ks =>
      match labels.lookup k with
      | some v => some v
      | none => firstKey labels ks

/-- `_extract_service` (`prometheus.py` lines 92-97). -/
def extract_service (labels : List (String × String)) : Option String :=
  firstKey labels ["service", "app", "application", "job", "namespace"]

/-- `_extract_host` (`prometheus.py` lines 100-106): `instance` with its port
stripped, else `node`, else `host`. -/
def extract_host (labels : List (String × String)) : Option String :=
  let instanceVal := (labels.lookup "instance").getD ""
  if instanceVal ≠ "" then
    some (if instanceVal.data.contains ':' then
      String.mk ((splitCharGo ':' [] instanceVal.data).headD [])
    else instanceVal)
  else
    match labels.lookup "node" with
    | some v => some v
    | none => labels.lookup "host"

/-- `_extract_environment` (`prometheus.py` lines 109-114). -/
def extract_environment (labels : List (String × String)) : Option String :=
  firstKey labels ["environment", "env", "tier", "stage"]

/-- Python `a or b` on optional strings (`None` and `""` are falsy). -/
def pyOrOpt (a b : Option String) : Option String :=
  match a with
  | some s => if s ≠ "" then some s else b
  | none => b

/-- The keys `normalize` removes from the labels mapping
(`prometheus.py` lines 173-177).  Note it does not list the service keys
`job` and `namespace` nor the host keys `instance`, `node` and `host`. -/
def extracted_keys : List String :=
  ["alertname", "severity", "priority", "level",
   "service", "app", "application",
   "environment", "env", "tier", "stage"]

/-- The normalization of one `alerts[]` entry
(`prometheus.py` lines 143-203). -/
def normalizeAlert (external_url : String) (alert_data : PromAlert) : NormalizedAlert :=
  let labels := alert_data.labels
  let annotations := alert_data.annotations
  let alert_name := (labels.lookup "alertname").getD "UnnamedAlert"
  let status := (alert_data.status).getD "firing"
  let clean_labels := labels.filter (fun kv => !(extracted_keys.contains kv.1))
  { name := alert_name
    source := "prometheus"
    source_instance := if external_url ≠ "" then some external_url else none
    severity := extract_severity labels
    status := if status = "firing" then "firing" else "resolved"
    description := pyOrOpt (annotations.lookup "description")
      (pyOrOpt (annotations.lookup "summary") (annotations.lookup "message"))
    service := extract_service labels
    environment := extract_environment labels
    host := extract_host labels
    labels := clean_labels
    annotations := annotations
    starts_at := parse_timestamp alert_data.startsAt
    ends_at := parse_timestamp alert_data.endsAt
    generator_url := alert_data.generatorURL }

/-- `PrometheusNormalizer.normalize` (`prometheus.py` lines 138-205). -/
def normalize (payload : PromPayload) : List NormalizedAlert :=
  let external_url := (payload.externalURL).getD ""
  payload.alerts.map (normalizeAlert external_url)

end Prometheus

namespace Splunk

/-!
### Splunk webhook normalizer (`backend/integrations/splunk.py`)
-/

/-- The Splunk webhook payload shape (the fields `normalize` reads); values
of the `result` row are modelled as the strings `str(value)` yields. -/
structure SplunkPayload where
  sid : Option String := none
  search_name : Option String := none
  results_link : Option String := none
  owner : Option String := none
  app : Option String := none
  result : List (String × String) := []
deriving DecidableEq, Repr

/-- `SEVERITY_FIELD_KEYS` (`splunk.py` lines 39-42). -/
def SEVERITY_FIELD_KEYS : List String :=
  ["severity", "priority", "urgency", "level",
   "alert_severity", "risk_level", "risk_score"]

/-- `SEVERITY_MAP` (`splunk.py` lines 44-65). -/
def SEVERITY_MAP : List (String × String) :=
  [("critical", "critical"), ("crit", "critical"), ("high", "high"),
   ("major", "high"), ("medium", "warning"), ("warning", "warning"),
   ("warn", "warning"), ("low", "low"), ("minor", "low"), ("info", "info"),
   ("informational", "info"), ("urgent", "critical"),
   ("5", "critical"), ("4", "high"), ("3", "warning"), ("2", "low"),
   ("1", "info")]

/-- `HOST_FIELD_KEYS` (`splunk.py` lines 68-72). -/
def HOST_FIELD_KEYS : List String :=
  ["host", "hostname", "src_host", "dest", "dest_host",
   "dvc", "dvc_host", "computer", "node", "instance",
   "ComputerName", "server", "src", "src_ip"]

/-- `SERVICE_FIELD_KEYS` (`splunk.py` lines 75-78). -/
def SERVICE_FIELD_KEYS : List String :=
  ["service", "app", "application", "service_name",
   "sourcetype", "index", "source_app"]

/-- `ENV_FIELD_KEYS` (`splunk.py` lines 81-83). -/
def ENV_FIELD_KEYS : List String :=
  ["environment", "env", "tier", "stage", "datacenter", "dc", "region"]

/-- `DESCRIPTION_FIELD_KEYS` (`splunk.py` lines 86-89). -/
def DESCRIPTION_FIELD_KEYS : List String :=
  ["message", "msg", "description", "summary", "reason",
   "details", "alert_message", "comment", "latest_error", "_raw"]

/-- `_extract_from_result` (`splunk.py` lines 92-98): first key whose value
is truthy and strips to a non-empty string; returns the stripped value. -/
def extract_from_result (result : List (String × String)) : List String → Option String
  | [] => none
  | k :: ks =>
      match result.lookup k with
      | some v =>
          if v ≠ "" && pyStrip v ≠ "" then some (pyStrip v)
          else extract_from_result result ks
      | none => extract_from_result result ks

/-- `_extract_severity` (`splunk.py` lines 101-122): the `SEVERITY_MAP`
lookup comes first; only when it misses is the value parsed as a float and
bucketed. -/
def extract_severity (result : List (String × String)) : String :=
  match extract_from_result result SEVERITY_FIELD_KEYS with
  | some raw =>
      match SEVERITY_MAP.lookup (pyStrip (pyLower raw)) with
      | some normalized => normalized
      | none =>
          match pyFloat? raw with
          | some score =>
              if score ≥ 80 then "critical"
              else if score ≥ 60 then "high"
              else if score ≥ 40 then "warning"
              else if score ≥ 20 then "low"
              else "info"
          | none => "warning"
  | none => "warning"

/-- `_build_labels` (`splunk.py` lines 125-133): keep result fields that were
not extracted, have truthy values, and do not start with an underscore. -/
def build_labels (result : List (String × String)) (extracted : List String) :
    List (String × String) :=
  result.filter (fun kv =>
    !(extracted.contains kv.1) && kv.2 ≠ "" && pyStrip kv.2 ≠ "" &&
      !(startsUnderscore kv.1))

/-- The `extracted_keys` set built in `normalize`
(`splunk.py` lines 178-185): every known field key present in the result. -/
def extractedKeys (result : List (String × String)) : List String :=
  (SEVERITY_FIELD_KEYS ++ HOST_FIELD_KEYS ++ SERVICE_FIELD_KEYS ++
    ENV_FIELD_KEYS ++ DESCRIPTION_FIELD_KEYS).filter
    (fun k => (result.lookup k).isSome)

/-- Python dict assignment `m[k] = v` on an association list: update in
place when the key exists, else append. -/
def dictSet (m : List (String × String)) (k v : String) : List (String × String) :=
  if (m.lookup k).isSome then m.map (fun kv => if kv.1 = k then (k, v) else kv)
  else m ++ [(k, v)]

/-- Conditionally set a metadata label when the value is truthy
(the `if owner: labels["splunk_owner"] = owner` lines). -/
def setIfTruthy (m : List (String × String)) (k : String) (v : Option String) :
    List (String × String) :=
  match v with
  | some s => if s ≠ "" then dictSet m k s else m
  | none => m

/-- `SplunkNormalizer.normalize` (`splunk.py` lines 154-219).  Note the
Python name expression parses as
`(search_name or f"...") if sid else "Splunk Alert"`, so a falsy `sid`
forces the constant name. -/
def normalize (payload : SplunkPayload) : List NormalizedAlert :=
  let result := payload.result
  let sid := (payload.sid).getD ""
  let name :=
    if sid ≠ "" then
      match payload.search_name with
      | some sn =>
          if sn ≠ "" then sn
          else "Splunk Alert (" ++ String.mk (sid.data.take 20) ++ "...)"
      | none => "Splunk Alert (" ++ String.mk (sid.data.take 20) ++ "...)"
    else "Splunk Alert"
  let labels0 := build_labels result (extractedKeys result)
  let labels1 := setIfTruthy labels0 "splunk_owner" payload.owner
  let labels2 := setIfTruthy labels1 "splunk_app" payload.app
  let labels3 := setIfTruthy labels2 "splunk_sid" (some sid)
  let annotations :=
    match payload.results_link with
    | some rl => if rl ≠ "" then [("results_link", rl)] else []
    | none => []
  [{ name := name
     source := "splunk"
     source_instance := payload.results_link
     severity := extract_severity result
     status := "firing"
     description := extract_from_result result DESCRIPTION_FIELD_KEYS
     service := extract_from_result result SERVICE_FIELD_KEYS
     environment := extract_from_result result ENV_FIELD_KEYS
     host := extract_from_result result HOST_FIELD_KEYS
     labels := labels3
     annotations := annotations
     generator_url := payload.results_link }]

end Splunk

/-- Concrete payload alert used to witness the amended C6 theorem. -/
def promWitAlert : Prometheus.PromAlert :=
  { status := some "firing",
    labels := [("alertname", "HighCPU"), ("env", "prod"), ("job", "node")] }

/-- Concrete payload used to witness the amended C6 theorem. -/
def promWitPayload : Prometheus.PromPayload :=
  { externalURL := none, alerts := [promWitAlert] }

/-- Written from the claim text (C7), for comparison with the code: the
claimed numeric bucketing
`value ≥ 80 → critical, ≥ 60 → high, ≥ 40 → warning, ≥ 20 → low, else info`. -/
def claimedRiskBucket (q : ℚ) : String :=
  if q ≥ 80 then "critical"
  else if q ≥ 60 then "high"
  else if q ≥ 40 then "warning"
  else if q ≥ 20 then "low"
  else "info"

/-!
### Persistent data model (`backend/models`) and store

Database tables are lists; UUIDs are modelled as `Nat` ids.  Operations take
the clock instant `now : Int` as a parameter.
-/

/-- The pipeline windows of `backend/config.py`, with their defaults. -/
structure Settings where
  dedup_window_seconds : Int := 300
  correlation_window_seconds : Int := 600
  notification_cooldown_seconds : Int := 300
deriving DecidableEq, Repr

/-- Alert ORM row (`backend/models`, class `Alert`); `raw_payload` is an
opaque echo and is not modelled. -/
structure Alert where
  id : Nat
  fingerprint : String
  source : String
  source_instance : Option String := none
  status : AlertStatus
  severity : Severity
  name : String
  description : Option String := none
  service : Option String := none
  environment : Option String := none
  host : Option String := none
  labels : List (String × String) := []
  annotations : List (String × String) := []
  tags : List String := []
  starts_at : Int
  ends_at : Option Int := none
  last_received_at : Int
  acknowledged_at : Option Int := none
  acknowledged_by : Option Nat := none
  resolved_at : Option Int := none
  duplicate_count : Nat := 1
  generator_url : Option String := none
  runbook_url : Option String := none
  ticket_url : Option String := none
  archived_at : Option Int := none
  incident_id : Option Nat := none
  created_at : Int
  updated_at : Int
deriving DecidableEq, Repr

/-- Incident ORM row (`backend/models`, class `Incident`). -/
structure Incident where
  id : Nat
  title : String
  status : IncidentStatus
  severity : Severity
  summary : Option String := none
  phase : Option String := none
  started_at : Int
  acknowledged_at : Option Int := none
  resolved_at : Option Int := none
  assigned_to : Option Nat := none
  created_at : Int
  updated_at : Int
deriving DecidableEq, Repr

/-- A JSON-ish value stored in an event's `event_data` mapping. -/
inductive PyVal where
  | str (s : String)
  | bool (b : Bool)
  | num (n : Nat)
  | none
deriving DecidableEq, Repr

/-- Python `value if value is not None else None` for optional strings
stored into `event_data`. -/
def PyVal.ofOptStr : Option String → PyVal
  | some s => .str s
  | Option.none => .none

/-- IncidentEvent ORM row (`backend/models`, class `IncidentEvent`). -/
structure IncidentEvent where
  incident_id : Nat
  event_type : String
  description : String
  actor : Option String := none
  event_data : List (String × PyVal) := []
deriving DecidableEq, Repr

/-- AlertOccurrence ORM row: one row per receipt. -/
structure AlertOccurrence where
  alert_id : Nat
  received_at : Int
deriving DecidableEq, Repr

/-- The relational store: the tables the modelled operations touch. -/
structure Store where
  alerts : List Alert := []
  incidents : List Incident := []
  events : List IncidentEvent := []
  occurrences : List AlertOccurrence := []
  nextId : Nat := 1
deriving DecidableEq, Repr

/-- Persist a mutation of an alert row (the ORM mutates in place; ids are
preserved by every modelled mutation). -/
def updateAlert (s : Store) (a : Alert) : Store :=
  { s with alerts := s.alerts.map (fun b => if b.id = a.id then a else b) }

/-- Persist a mutation of an incident row. -/
def updateIncident (s : Store) (i : Incident) : Store :=
  { s with incidents := s.incidents.map (fun j => if j.id = i.id then i else j) }

/-- The first listed alert among those with the greatest `created_at`
(model of `ORDER BY created_at DESC LIMIT 1`; the tie order among equal
timestamps is not specified by the database and is fixed to list order
here). -/
def mostRecentCreated : List Alert → Option Alert
  | [] => none
  | a :: rest =>
      match mostRecentCreated rest with
      | none => some a
      | some b => if b.created_at > a.created_at then some b else some a

/-- `find_duplicate` (`backend/core/dedup.py` lines 12-41): the most recent
active alert with the same fingerprint received within the dedup window. -/
def find_duplicate (cfg : Settings) (s : Store) (fingerprint : String) (now : Int) :
    Option Alert :=
  let window_start := now - cfg.dedup_window_seconds
  mostRecentCreated (s.alerts.filter (fun a =>
    decide (a.fingerprint = fingerprint
      ∧ (a.status = .firing ∨ a.status = .acknowledged)
      ∧ a.last_received_at ≥ window_start)))

/-- `process_duplicate` (`backend/core/dedup.py` lines 44-59). -/
def process_duplicate (existing : Alert) (now : Int) : Alert :=
  { existing with
    duplicate_count := existing.duplicate_count + 1
    last_received_at := now
    updated_at := now }

/-- Python errors the modelled pipeline can raise. -/
inductive PyError where
  | attributeError (typeName attr : String)
deriving DecidableEq, Repr

/-- The successful result of `ingest_alert`. -/
structure IngestOk where
  store : Store
  alert : Alert
  is_duplicate : Bool
deriving DecidableEq, Repr

/-- `ingest_alert` (`backend/services/__init__.py` lines 28-193).  Steps 1-3a
(fingerprint, dedup, duplicate update plus occurrence row) are modelled in
full.  On the non-duplicate path the source next evaluates
`if not normalized.runbook_url:` (line 78); `NormalizedAlert.__init__` sets
no `runbook_url` attribute and no normalizer adds one, so Python raises
`AttributeError` there — before the silence check, persistence, correlation
and notification dispatch, which are therefore unreachable from ingestion —
and the webhook transaction rolls back.  (Were that read repaired, the
pipeline would still fail at line 170: `correlate_alert` returns the
`Incident` object, while the coordinator reads `result.incident` and
`result.event_type`, attributes an `Incident` does not have.)  The model
returns the error; the store is unchanged on the error path. -/
def ingest_alert (cfg : Settings) (s : Store) (normalized : NormalizedAlert)
    (now : Int) : Except PyError IngestOk :=
  let fingerprint := ingestFingerprint normalized
  match find_duplicate cfg s fingerprint now with
  | some existing =>
      let updated := process_duplicate existing now
      let s1 := updateAlert s updated
      let s2 := { s1 with occurrences := s1.occurrences ++ [⟨updated.id, now⟩] }
      .ok ⟨s2, updated, true⟩
  | none => .error (.attributeError "NormalizedAlert" "runbook_url")

/-!
### Correlation (`backend/core/correlation.py`)
-/

/-- `SEVERITY_ORDER` (`correlation.py` lines 38-44). -/
def SEVERITY_ORDER : List Severity :=
  [.info, .low, .warning, .high, .critical]

/-- `SEVERITY_ORDER.index(a) if a in SEVERITY_ORDER else 0`
(`correlation.py` lines 49-50). -/
def sevIndex (a : Severity) : Nat :=
  if a ∈ SEVERITY_ORDER then SEVERITY_ORDER.indexOf a else 0

/-- `_max_severity` (`correlation.py` lines 47-51); the index is always
below the list length, so `getD` matches Python indexing. -/
def max_severity (a b : Severity) : Severity :=
  SEVERITY_ORDER.getD (max (sevIndex a) (sevIndex b)) .info

/-- Python truthiness of an optional string. -/
def optTruthy (o : Option String) : Bool :=
  match o with
  | some s => s ≠ ""
  | none => false

/-- A single-quote character for rendering the source's f-strings. -/
def sqChar : Char := Char.ofNat 39

/-- Wrap a string in single quotes (as the log/description f-strings do). -/
def sq (s : String) : String :=
  String.mk (sqChar :: s.data ++ [sqChar])

/-- `_build_incident_title` (`correlation.py` lines 54-62): only the first
two parts are joined, so the `on host` part is dead code. -/
def build_incident_title (alert : Alert) : String :=
  if optTruthy alert.service then (alert.service.getD "") ++ " — " ++ alert.name
  else alert.name

/-- The first listed incident among those with the greatest `started_at`
(model of `ORDER BY started_at DESC LIMIT 1`). -/
def mostRecentStarted : List Incident → Option Incident
  | [] => none
  | i :: rest =>
      match mostRecentStarted rest with
      | none => some i
      | some j => if j.started_at > i.started_at then some j else some i

/-- `find_matching_incident` (`correlation.py` lines 65-99): the most
recently started open/acknowledged incident within the correlation window
having at least one attached alert with the same service. -/
def find_matching_incident (cfg : Settings) (s : Store) (alert : Alert)
    (now : Int) : Option Incident :=
  let cutoff := now - cfg.correlation_window_seconds
  if !(optTruthy alert.service) then none
  else
    mostRecentStarted (s.incidents.filter (fun i =>
      decide ((i.status = .open ∨ i.status = .acknowledged)
        ∧ i.started_at ≥ cutoff
        ∧ ∃ a ∈ s.alerts, a.incident_id = some i.id ∧ a.service = alert.service)))

/-- `_attach_to_incident` (`correlation.py` lines 127-184): link the alert,
promote the incident severity when the alert is more severe, and append the
`alert_added` (and possibly `severity_changed`) events.  Note the
`severity_changed` event reads `incident.severity` after the promotion was
already assigned, and its `from` value backs one step in `SEVERITY_ORDER`
from the new severity.  Returns the updated alert, incident and the appended
events. -/
def attach_to_incident (alert : Alert) (incident : Incident) (now : Int) :
    Alert × Incident × List IncidentEvent :=
  let alert1 := { alert with incident_id := some incident.id, updated_at := now }
  let new_severity := max_severity incident.severity alert.severity
  let severity_changed := decide (new_severity ≠ incident.severity)
  let incident1 :=
    if severity_changed then
      { incident with severity := new_severity, updated_at := now }
    else incident
  let event : IncidentEvent :=
    { incident_id := incident.id
      event_type := "alert_added"
      description := "Alert " ++ sq alert.name ++ " correlated to incident"
      event_data := [("alert_id", .str (toString alert.id)),
                     ("alert_name", .str alert.name),
                     ("alert_severity", .str alert.severity.value),
                     ("alert_host", PyVal.ofOptStr alert.host),
                     ("severity_promoted", .bool severity_changed)] }
  let sev_event : IncidentEvent :=
    { incident_id := incident.id
      event_type := "severity_changed"
      description := "Severity escalated to " ++ new_severity.value
      event_data := [("from", .str (if !severity_changed then incident1.severity.value
                       else (SEVERITY_ORDER.getD (sevIndex new_severity - 1) .info).value)),
                     ("to", .str new_severity.value),
                     ("trigger_alert_id", .str (toString alert.id))] }
  (alert1, incident1, if severity_changed then [event, sev_event] else [event])

/-- `_create_incident` (`correlation.py` lines 187-230): new open incident
from the alert (`alert.starts_at` is a non-null column, so
`alert.starts_at or now` is `alert.starts_at`), with the `incident_created`
event by actor `system`. -/
def create_incident (s : Store) (alert : Alert) (now : Int) : Store × Incident :=
  let incident : Incident :=
    { id := s.nextId
      title := build_incident_title alert
      status := .open
      severity := alert.severity
      summary := alert.description
      started_at := alert.starts_at
      created_at := now
      updated_at := now }
  let alert1 := { alert with incident_id := some incident.id, updated_at := now }
  let event : IncidentEvent :=
    { incident_id := incident.id
      event_type := "incident_created"
      description := "Incident created from alert " ++ sq alert.name
      actor := some "system"
      event_data := [("trigger_alert_id", .str (toString alert.id)),
                     ("alert_name", .str alert.name),
                     ("service", PyVal.ofOptStr alert.service),
                     ("host", PyVal.ofOptStr alert.host)] }
  ({ s with
      incidents := s.incidents ++ [incident]
      alerts := (updateAlert s alert1).alerts
      events := s.events ++ [event]
      nextId := s.nextId + 1 }, incident)

/-- `_handle_resolved_alert` (`correlation.py` lines 233-281): when an
already-resolved alert belongs to an incident whose alerts are now all
resolved, auto-resolve the incident. -/
def handle_resolved_alert (s : Store) (alert : Alert) (now : Int) :
    Store × Option Incident :=
  match alert.incident_id with
  | none => (s, none)
  | some iid =>
      match s.incidents.find? (fun i => decide (i.id = iid)) with
      | none => (s, none)
      | some incident =>
          let memberAlerts := s.alerts.filter (fun a => decide (a.incident_id = some iid))
          let all_resolved := memberAlerts.all (fun a => decide (a.status = .resolved))
          if all_resolved && !(decide (incident.status = .resolved)) then
            let incident1 := { incident with
              status := .resolved, resolved_at := some now, updated_at := now }
            let event : IncidentEvent :=
              { incident_id := incident.id
                event_type := "incident_auto_resolved"
                description := "All alerts resolved — incident auto-resolved"
                actor := some "system"
                event_data := [("resolved_alert_id", .str (toString alert.id))] }
            ({ (updateIncident s incident1) with
                events := s.events ++ [event] }, some incident1)
          else (s, some incident)

/-- `correlate_alert` (`correlation.py` lines 102-124): returns the
`Incident` ORM object itself (or `None` on the resolved path) — it does not
return an `(incident, event_type)` pair. -/
def correlate_alert (cfg : Settings) (s : Store) (alert : Alert) (now : Int) :
    Store × Option Incident :=
  if alert.status = .resolved then handle_resolved_alert s alert now
  else
    match find_matching_incident cfg s alert now with
    | some incident =>
        let (alert1, incident1, evts) := attach_to_incident alert incident now
        ({ (updateIncident (updateAlert s alert1) incident1) with
            events := s.events ++ evts }, some incident1)
    | none =>
        let (s1, incident) := create_incident s alert now
        (s1, some incident)

/-!
### Alert and incident services (`backend/services/__init__.py`)
-/

/-- `acknowledge_alert` (`services/__init__.py` lines 274-297): set status
and `acknowledged_at`; `resolved_at` is not cleared and `acknowledged_by` is
accepted but never stored. -/
def acknowledge_alert (s : Store) (alert_id : Nat) (acknowledged_by : Option String)
    (now : Int) : Store × Option Alert :=
  match s.alerts.find? (fun b => decide (b.id = alert_id)) with
  | none => (s, none)
  | some alert =>
      let updated := { alert with
        status := AlertStatus.acknowledged
        acknowledged_at := some now
        updated_at := now }
      (updateAlert s updated, some updated)

/-- `resolve_alert` (`services/__init__.py` lines 300-323): unconditionally
stamp `resolved_at`, `ends_at` and `updated_at` with the current instant. -/
def resolve_alert (s : Store) (alert_id : Nat) (now : Int) : Store × Option Alert :=
  match s.alerts.find? (fun b => decide (b.id = alert_id)) with
  | none => (s, none)
  | some alert =>
      let updated := { alert with
        status := AlertStatus.resolved
        resolved_at := some now
        ends_at := some now
        updated_at := now }
      (updateAlert s updated, some updated)

/-- `bulk_acknowledge_alerts` (`services/__init__.py` lines 690-712): only
alerts in the id list that are currently firing are acknowledged. -/
def bulk_acknowledge_alerts (s : Store) (alert_ids : List Nat)
    (acknowledged_by : Option String) (now : Int) : Store × List Nat :=
  let updated_ids := (s.alerts.filter (fun a =>
    decide (a.id ∈ alert_ids ∧ a.status = .firing))).map (fun a => a.id)
  ({ s with alerts := s.alerts.map (fun a =>
      if a.id ∈ alert_ids ∧ a.status = .firing then
        { a with
          status := AlertStatus.acknowledged
          acknowledged_at := some now
          updated_at := now }
      else a) }, updated_ids)

/-- `bulk_resolve_alerts` (`services/__init__.py` lines 715-737). -/
def bulk_resolve_alerts (s : Store) (alert_ids : List Nat) (now : Int) :
    Store × List Nat :=
  let updated_ids := (s.alerts.filter (fun a =>
    decide (a.id ∈ alert_ids ∧ (a.status = .firing ∨ a.status = .acknowledged)))).map
      (fun a => a.id)
  ({ s with alerts := s.alerts.map (fun a =>
      if a.id ∈ alert_ids ∧ (a.status = .firing ∨ a.status = .acknowledged) then
        { a with
          status := AlertStatus.resolved
          resolved_at := some now
          ends_at := some now
          updated_at := now }
      else a) }, updated_ids)

/-- `acknowledge_incident` (`services/__init__.py` lines 398-440):
acknowledge the incident and all its firing alerts, and append the
`incident_acknowledged` event counting the alerts stamped at this instant. -/
def acknowledge_incident (s : Store) (incident_id : Nat)
    (acknowledged_by : Option String) (now : Int) : Store × Option Incident :=
  match s.incidents.find? (fun i => decide (i.id = incident_id)) with
  | none => (s, none)
  | some incident =>
      let incident1 := { incident with
        status := IncidentStatus.acknowledged
        acknowledged_at := some now
        updated_at := now }
      let newAlerts := s.alerts.map (fun a =>
        if a.incident_id = some incident_id ∧ a.status = .firing then
          { a with
            status := AlertStatus.acknowledged
            acknowledged_at := some now
            updated_at := now }
        else a)
      let event : IncidentEvent :=
        { incident_id := incident.id
          event_type := "incident_acknowledged"
          description := "Incident acknowledged"
          actor := some ((acknowledged_by).getD "system")
          event_data := [("alerts_acknowledged",
            .num ((newAlerts.filter (fun a =>
              decide (a.incident_id = some incident_id
                ∧ a.acknowledged_at = some now))).length))] }
      ({ s with
          alerts := newAlerts
          incidents := (updateIncident s incident1).incidents
          events := s.events ++ [event] }, some incident1)

/-- `resolve_incident` (`services/__init__.py` lines 443-483): resolve the
incident and all its firing or acknowledged alerts. -/
def resolve_incident (s : Store) (incident_id : Nat) (resolved_by : Option String)
    (now : Int) : Store × Option Incident :=
  match s.incidents.find? (fun i => decide (i.id = incident_id)) with
  | none => (s, none)
  | some incident =>
      let incident1 := { incident with
        status := IncidentStatus.resolved
        resolved_at := some now
        updated_at := now }
      let resolved_count := (s.alerts.filter (fun a =>
        decide (a.incident_id = some incident_id
          ∧ (a.status = .firing ∨ a.status = .acknowledged)))).length
      let newAlerts := s.alerts.map (fun a =>
        if a.incident_id = some incident_id
            ∧ (a.status = .firing ∨ a.status = .acknowledged) then
          { a with
            status := AlertStatus.resolved
            resolved_at := some now
            ends_at := some now
            updated_at := now }
        else a)
      let event : IncidentEvent :=
        { incident_id := incident.id
          event_type := "incident_resolved"
          description := "Incident resolved"
          actor := some ((resolved_by).getD "system")
          event_data := [("alerts_resolved", .num resolved_count)] }
      ({ s with
          alerts := newAlerts
          incidents := (updateIncident s incident1).incidents
          events := s.events ++ [event] }, some incident1)

/-- `archive_alerts` (`services/__init__.py` lines 743-765): archive
resolved alerts whose `resolved_at` is older than the cutoff. -/
def archive_alerts (s : Store) (older_than_days : Int) (now : Int) : Store × Nat :=
  let cutoff := now - older_than_days * 86400
  let hits := s.alerts.filter (fun a =>
    decide (a.status = .resolved ∧ a.archived_at = none
      ∧ ∃ r, a.resolved_at = some r ∧ r < cutoff))
  ({ s with alerts := s.alerts.map (fun a =>
      if a.status = .resolved ∧ a.archived_at = none
          ∧ ∃ r, a.resolved_at = some r ∧ r < cutoff then
        { a with status := AlertStatus.archived, archived_at := some now }
      else a) }, hits.length)

/-- The invariant of claim C4: an alert whose status is firing or
acknowledged has a null `resolved_at`. -/
def AlertInv (s : Store) : Prop :=
  ∀ a ∈ s.alerts, (a.status = .firing ∨ a.status = .acknowledged) →
    a.resolved_at = none

instance (s : Store) : Decidable (AlertInv s) :=
  inferInstanceAs (Decidable (∀ a ∈ s.alerts,
    (a.status = .firing ∨ a.status = .acknowledged) → a.resolved_at = none))

/-- Written from the claim text (C9): the immediate predecessor in the
canonical severity order `info < low < warning < high < critical` (with
`info` its own floor). -/
def canonicalPred : Severity → Severity
  | .critical => .high
  | .high => .warning
  | .warning => .low
  | .low => .info
  | .info => .info

namespace OnCall

/-!
### On-call resolution (`backend/core/oncall.py` and `backend/models/oncall.py`)

Timezones are modelled as fixed offsets from UTC held in an environment
table (IANA zones with daylight-saving transitions are outside the model);
an unresolvable zone falls back to UTC, as in the source.
-/

/-- `RotationType` (`backend/models/oncall.py`). -/
inductive RotationType where
  | hourly
  | daily
  | weekly
  | custom
deriving DecidableEq, Repr

/-- A user row, reduced to what on-call resolution reads. -/
structure User where
  id : Nat
  is_active : Bool
deriving DecidableEq, Repr

/-- One entry of a schedule's `members` JSON list (`{user_id, order}`). -/
structure Member where
  user_id : Nat
  order : Nat := 0
deriving DecidableEq, Repr

/-- `OnCallOverride` row. -/
structure OnCallOverride where
  schedule_id : Nat
  user_id : Nat
  starts_at : Int
  ends_at : Int
  created_at : Int
deriving DecidableEq, Repr

/-- `OnCallSchedule` row (the fields `get_current_oncall` reads). -/
structure OnCallSchedule where
  id : Nat
  is_active : Bool
  timezone : String
  rotation_type : RotationType
  members : List Member := []
  handoff_time : Option String := none
  rotation_interval_hours : Option Nat := none
  rotation_interval_days : Option Nat := none
  effective_from : Int
deriving DecidableEq, Repr

/-- The environment on-call resolution queries. -/
structure OnCallEnv where
  schedules : List OnCallSchedule := []
  overrides : List OnCallOverride := []
  users : List User := []
  tzOffsets : List (String × Int) := []
deriving DecidableEq, Repr

/-- The most recently created override (first listed among ties;
`ORDER BY created_at DESC LIMIT 1`). -/
def mostRecentOverride : List OnCallOverride → Option OnCallOverride
  | [] => none
  | o :: rest =>
      match mostRecentOverride rest with
      | none => some o
      | some p => if p.created_at > o.created_at then some p else some o

/-- Python `x or d` on an optional integer column (`None` and `0` give `d`). -/
def pyOrNat (o : Option Nat) (d : Nat) : Nat :=
  match o with
  | some n => if n = 0 then d else n
  | none => d

/-- Parse `(schedule.handoff_time or "09:00").split(":")` into hour and
minute (`oncall.py` lines 105-107); the stored value is validated to be
`HH:MM`, and `int()` of other text — which would raise — is modelled as 0. -/
def parseHandoff (h : Option String) : Nat × Nat :=
  let hs := match h with
    | some s => if s ≠ "" then s else "09:00"
    | none => "09:00"
  let parts := pySplitChar hs ':'
  ((digitsToNat? (parts.headD "").data).getD 0,
   if parts.length > 1 then (digitsToNat? ((parts.getD 1 "").data)).getD 0 else 0)

/-- The "first handoff" instant in local wall-clock seconds
(`oncall.py` lines 109-114): the handoff time-of-day on the local date of
`effective_from`, pushed one day later when it precedes `effective_from`. -/
def firstHandoffWall (schedule : OnCallSchedule) (off : Int) : Int :=
  let hm := parseHandoff schedule.handoff_time
  let effectiveWall := schedule.effective_from + off
  let dayStart := effectiveWall - effectiveWall % 86400
  let handoffWall := dayStart + (hm.1 : Int) * 3600 + (hm.2 : Int) * 60
  if effectiveWall > handoffWall then handoffWall + 86400 else handoffWall

/-- `get_current_oncall` (`backend/core/oncall.py` lines 45-150): an active
override wins; otherwise rotation arithmetic over the members list.
Division and modulus divisors are positive, so Lean's Euclidean `Int`
operations agree with Python floor division. -/
def get_current_oncall (env : OnCallEnv) (schedule_id : Nat) (at_time : Int) :
    Option User :=
  let now := at_time
  match env.schedules.find? (fun sc =>
      decide (sc.id = schedule_id ∧ sc.is_active = true)) with
  | none => none
  | some schedule =>
      let active := env.overrides.filter (fun o =>
        decide (o.schedule_id = schedule.id ∧ o.starts_at ≤ now ∧ o.ends_at > now))
      match mostRecentOverride active with
      | some ov =>
          env.users.find? (fun u => decide (u.id = ov.user_id ∧ u.is_active = true))
      | none =>
          if schedule.members.isEmpty then none
          else
            let off := (env.tzOffsets.lookup schedule.timezone).getD 0
            let handoffWall := firstHandoffWall schedule off
            let delta := (now + off) - handoffWall
            let member_index :=
              if delta < 0 then 0
              else
                match schedule.rotation_type with
                | .hourly =>
                    let interval_hours := pyOrNat schedule.rotation_interval_hours 1
                    ((delta / ((interval_hours : Int) * 3600))
                      % (schedule.members.length : Int)).toNat
                | rt =>
                    let days_elapsed := delta / 86400
                    let interval : Int :=
                      match rt with
                      | .daily => 1
                      | .weekly => 7
                      | _ => (pyOrNat schedule.rotation_interval_days 7 : Int)
                    ((days_elapsed / interval)
                      % (schedule.members.length : Int)).toNat
            let member := schedule.members.getD member_index ⟨0, 0⟩
            env.users.find? (fun u =>
              decide (u.id = member.user_id ∧ u.is_active = true))

end OnCall

/-!
### Notification dispatch (`backend/core/notifications.py`)
-/

/-- `ChannelType` (`backend/models`). -/
inductive ChannelType where
  | slack
  | email
  | teams
  | webhook
  | pagerduty
deriving DecidableEq, Repr

/-- `NotificationStatus` (`backend/models`). -/
inductive NotificationStatus where
  | pending
  | sent
  | failed
deriving DecidableEq, Repr

/-- `NotificationChannel` row; of its JSON `filters` bag the dispatcher
reads the `severity` and `service` lists (a missing or non-list entry never
filters). -/
structure NotificationChannel where
  id : Nat
  name : String
  channel_type : ChannelType
  is_active : Bool
  filters_severity : Option (List String) := none
  filters_service : Option (List String) := none
deriving DecidableEq, Repr

/-- `NotificationLog` row. -/
structure NotificationLog where
  channel_id : Nat
  incident_id : Nat
  event_type : String
  status : NotificationStatus
  error_message : Option String := none
  sent_at : Option Int := none
deriving DecidableEq, Repr

/-- `matches_filters` (`notifications.py` lines 56-74): non-empty severity
list must contain the incident severity; non-empty service list must
intersect the services of the incident's alerts. -/
def matches_filters (channel : NotificationChannel) (incident : Incident)
    (incidentAlerts : List Alert) : Bool :=
  (match channel.filters_severity with
    | some severities =>
        if severities.length > 0 then severities.contains incident.severity.value
        else true
    | none => true)
  && (match channel.filters_service with
    | some services =>
        if services.length > 0 then
          incidentAlerts.any (fun a =>
            optTruthy a.service && services.contains (a.service.getD ""))
        else true
    | none => true)

/-- The in-process rate-limit cache keyed by `(channel_id, incident_id)`. -/
abbrev RateCache : Type := List ((Nat × Nat) × Int)

/-- Python dict assignment into the rate-limit cache. -/
def cacheSet (cache : RateCache) (key : Nat × Nat) (v : Int) : RateCache :=
  if (cache.lookup key).isSome then
    cache.map (fun kv => if kv.1 = key then (key, v) else kv)
  else cache ++ [(key, v)]

/-- `check_rate_limit` (`notifications.py` lines 77-89): `True` (and a fresh
stamp) when no stamp exists or the stamp is older than the cooldown; the
stamp is written before any delivery attempt. -/
def check_rate_limit (cfg : Settings) (cache : RateCache)
    (channel_id incident_id : Nat) (now : Int) : Bool × RateCache :=
  let cooldown := cfg.notification_cooldown_seconds
  let key := (channel_id, incident_id)
  match cache.lookup key with
  | some last_sent =>
      if now - last_sent < cooldown then (false, cache)
      else (true, cacheSet cache key now)
  | none => (true, cacheSet cache key now)

/-- The dispatcher's observable state: the rate cache, the persisted log
rows and the channels for which a delivery attempt was made. -/
structure DispatchState where
  cache : RateCache := []
  logs : List NotificationLog := []
  sends : List Nat := []
deriving DecidableEq

/-- One channel iteration of `dispatch_notifications`
(`notifications.py` lines 538-580).  `sendOutcome` is the external delivery
result for each channel: `none` is success, `some err` an exception whose
text is truncated to 500 characters.  Every `channel_type` has a sender in
`_SENDERS`, so the unknown-type branch is unreachable. -/
def dispatchChannel (cfg : Settings) (incident : Incident)
    (incidentAlerts : List Alert) (event_type : String)
    (sendOutcome : Nat → Option String) (now : Int)
    (st : DispatchState) (channel : NotificationChannel) : DispatchState :=
  if !(matches_filters channel incident incidentAlerts) then st
  else
    match check_rate_limit cfg st.cache channel.id incident.id now with
    | (false, cache1) => { st with cache := cache1 }
    | (true, cache1) =>
        let log : NotificationLog :=
          { channel_id := channel.id
            incident_id := incident.id
            event_type := event_type
            status := .pending }
        let log1 :=
          match sendOutcome channel.id with
          | none => { log with status := .sent, sent_at := some now }
          | some err =>
              { log with
                status := .failed
                error_message := some (String.mk (err.data.take 500)) }
        { cache := cache1, logs := st.logs ++ [log1], sends := st.sends ++ [channel.id] }

/-- `dispatch_notifications` (`notifications.py` lines 519-580): iterate the
active channels, applying filters, the cooldown and per-channel delivery. -/
def dispatch_notifications (cfg : Settings) (channels : List NotificationChannel)
    (incident : Incident) (incidentAlerts : List Alert) (event_type : String)
    (sendOutcome : Nat → Option String) (now : Int) (st : DispatchState) :
    DispatchState :=
  (channels.filter (fun c => c.is_active)).foldl
    (dispatchChannel cfg incident incidentAlerts event_type sendOutcome now) st

/-!
### Concrete fixtures used by witnesses and counterexamples
-/

/-- A minimal normalized alert (generic provider). -/
def exNorm : NormalizedAlert := { name := "HighCPU", source := "generic" }

/-- A stored firing alert carrying the fingerprint of `exNorm`, as the first
ingest of `exNorm` would have persisted it. -/
def exDupAlert : Alert :=
  { id := 1
    fingerprint := ingestFingerprint exNorm
    source := "generic"
    status := .firing
    severity := .warning
    name := "HighCPU"
    starts_at := 0
    last_received_at := 95
    created_at := 0
    updated_at := 0 }

/-- A store holding `exDupAlert` and its initial occurrence row. -/
def exDupStore : Store :=
  { alerts := [exDupAlert], occurrences := [⟨1, 0⟩], nextId := 2 }

/-- A resolved alert with `resolved_at` set (a legal store state). -/
def cxResolvedAlert : Alert :=
  { id := 1
    fingerprint := "f1"
    source := "generic"
    status := .resolved
    severity := .warning
    name := "A"
    starts_at := 0
    ends_at := some 5
    last_received_at := 0
    resolved_at := some 5
    created_at := 0
    updated_at := 5 }

/-- A store holding only `cxResolvedAlert`; it satisfies `AlertInv`. -/
def cxResolvedStore : Store := { alerts := [cxResolvedAlert], nextId := 2 }

/-- A plain firing alert. -/
def exFiringAlert : Alert :=
  { id := 1
    fingerprint := "f1"
    source := "generic"
    status := .firing
    severity := .critical
    name := "HighCPU"
    starts_at := 0
    last_received_at := 0
    created_at := 0
    updated_at := 0 }

/-- A store holding only `exFiringAlert`. -/
def exFiringStore : Store := { alerts := [exFiringAlert], nextId := 2 }

/-- Three active users for the S5 rotation scenario. -/
def exUsers : List OnCall.User := [⟨1, true⟩, ⟨2, true⟩, ⟨3, true⟩]

/-- The S5 schedule: hourly rotation, interval 2 h, members U1 U2 U3,
timezone UTC, effective from 2025-01-01T00:00:00Z, handoff 00:00. -/
def exSchedule : OnCall.OnCallSchedule :=
  { id := 1
    is_active := true
    timezone := "UTC"
    rotation_type := .hourly
    members := [⟨1, 0⟩, ⟨2, 1⟩, ⟨3, 2⟩]
    handoff_time := some "00:00"
    rotation_interval_hours := some 2
    effective_from := 1735689600 }

/-- The on-call environment of the S5 scenario (UTC offset table). -/
def exOnCallEnv : OnCall.OnCallEnv :=
  { schedules := [exSchedule]
    overrides := []
    users := exUsers
    tzOffsets := [("UTC", 0)] }

/-- The failed notification log row a failing delivery writes
(status `failed`, error text truncated to 500 characters). -/
def failedLog (c : NotificationChannel) (incident : Incident) (evt err : String) :
    NotificationLog :=
  { channel_id := c.id
    incident_id := incident.id
    event_type := evt
    status := .failed
    error_message := some (String.mk (err.data.take 500)) }

/-- An active Slack channel with no filters. -/
def exChannel : NotificationChannel :=
  { id := 7, name := "ops", channel_type := .slack, is_active := true }

/-- A critical alert about to be attached to an incident. -/
def exAttachAlert : Alert :=
  { id := 2
    fingerprint := "f2"
    source := "generic"
    status := .firing
    severity := .critical
    name := "HighMemory"
    service := some "api"
    starts_at := 0
    last_received_at := 0
    created_at := 0
    updated_at := 0 }

/-- A warning-severity open incident. -/
def exAttachIncident : Incident :=
  { id := 1
    title := "api — HighCPU"
    status := .open
    severity := .warning
    started_at := 0
    created_at := 0
    updated_at := 0 }

/-!
### Helper lemmas and claim theorems
-/

/-- The digest of a hash state has 32 bytes. -/
lemma digestBytes_length (H : Hash8) : (digestBytes H).length = 32 := by
  simp [digestBytes, wordBytes]

/-- Every byte of a 32-bit word rendering is below 256. -/
lemma mem_wordBytes_lt {b w : Nat} (h : b ∈ wordBytes w) : b < 256 := by
  simp only [wordBytes, List.mem_cons, List.not_mem_nil, or_false] at h
  rcases h with rfl | rfl | rfl | rfl <;> exact Nat.mod_lt _ (by norm_num)

/-- Every digest byte is below 256. -/
lemma mem_digestBytes_lt {b : Nat} {H : Hash8} (h : b ∈ digestBytes H) : b < 256 := by
  simp only [digestBytes, List.mem_append] at h
  rcases h with ((((((h | h) | h) | h) | h) | h) | h) | h <;> exact mem_wordBytes_lt h

/-- SHA-256 always produces 32 bytes. -/
lemma sha256_length (msg : List Nat) : (sha256 msg).length = 32 :=
  digestBytes_length _

/-- Every SHA-256 output byte is below 256. -/
lemma mem_sha256_lt {b : Nat} {msg : List Nat} (h : b ∈ sha256 msg) : b < 256 :=
  mem_digestBytes_lt h

/-- The hex digest has two characters per byte. -/
lemma hexdigest_length (bytes : List Nat) : (hexdigest bytes).length = 2 * bytes.length := by
  induction bytes with
  | nil => rfl
  | cons b rest ih =>
      simp [hexdigest, byteHexChars] at ih ⊢
      omega

/-- The hex digit of a value below 16 is a lowercase hex digit character. -/
lemma hexChar_mem : ∀ n < 16, hexChar n ∈ hexDigitChars := by decide

/-- Every character of the hex digest of genuine bytes is a lowercase hex digit. -/
lemma mem_hexdigest_hex {c : Char} {bytes : List Nat} (hmem : c ∈ hexdigest bytes)
    (hb : ∀ b ∈ bytes, b < 256) : c ∈ hexDigitChars := by
  simp only [hexdigest, List.mem_flatten, List.mem_map] at hmem
  obtain ⟨l, ⟨b, hbmem, rfl⟩, hcl⟩ := hmem
  have hblt := hb b hbmem
  simp only [byteHexChars, List.mem_cons, List.not_mem_nil, or_false] at hcl
  rcases hcl with rfl | rfl
  · exact hexChar_mem _ (by omega)
  · exact hexChar_mem _ (Nat.mod_lt _ (by norm_num))

/-- Sorting by the full (key, value) pair is permutation-invariant. -/
lemma sortedItems_perm_eq {l₁ l₂ : List (String × String)} (h : l₁.Perm l₂) :
    sortedItems l₁ = sortedItems l₂ :=
  List.eq_of_perm_of_sorted
    ((List.perm_insertionSort itemLe l₁).trans
      (h.trans (List.perm_insertionSort itemLe l₂).symm))
    (List.sorted_insertionSort itemLe l₁)
    (List.sorted_insertionSort itemLe l₂)

/-- The canonical identity JSON is invariant under permutation of the labels. -/
lemma canonicalIdentity_perm (source name : String) (service host : Option String)
    {l₁ l₂ : List (String × String)} (h : l₁.Perm l₂) :
    canonicalIdentity source name service host l₁
      = canonicalIdentity source name service host l₂ := by
  have hf : filteredLabels l₁ = filteredLabels l₂ := by
    unfold filteredLabels
    rw [sortedItems_perm_eq h]
  by_cases h1 : l₁ = []
  · have h2 : l₂ = [] := (h1 ▸ h).symm.eq_nil
    simp [canonicalIdentity, h1, h2]
  · have h2 : l₂ ≠ [] := fun hn => h1 ((hn ▸ h).eq_nil)
    simp [canonicalIdentity, h1, h2, hf]

/-- C2: for every source, name, optional service, optional host and labels
mapping, `generate_fingerprint` is deterministic (it is a function of these
inputs alone), returns exactly 16 lowercase hex characters, is unchanged
under any permutation of the labels mapping, is unchanged by the (unused)
`severity` argument, and — at the `ingest_alert` call site — two normalized
alerts that agree on source, name, service, host and labels (so differ at
most in severity, description, annotations or other fields) get equal
fingerprints. -/
theorem C2_generate_fingerprint_properties
    (source name : String) (service host sev1 sev2 : Option String)
    (labels labels2 : List (String × String))
    (hperm : labels.Perm labels2) :
    (generate_fingerprint source name service host sev1 labels).length = 16
    ∧ (∀ c ∈ (generate_fingerprint source name service host sev1 labels).data,
        c ∈ hexDigitChars)
    ∧ generate_fingerprint source name service host sev1 labels
        = generate_fingerprint source name service host sev2 labels2
    ∧ (∀ n1 n2 : NormalizedAlert, n1.source = n2.source → n1.name = n2.name →
        n1.service = n2.service → n1.host = n2.host → n1.labels = n2.labels →
        ingestFingerprint n1 = ingestFingerprint n2) := by
  refine ⟨?_, ?_, ?_, ?_⟩
  · show ((hexdigest (sha256 _)).take 16).length = 16
    rw [List.length_take, hexdigest_length, sha256_length]
    rfl
  · intro c hc
    have hc2 : c ∈ hexdigest (sha256 (utf8Encode
        (canonicalIdentity source name service host labels))) :=
      List.mem_of_mem_take hc
    exact mem_hexdigest_hex hc2 (fun b hb => mem_sha256_lt hb)
  · show String.mk _ = String.mk _
    rw [canonicalIdentity_perm source name service host hperm]
  · intro n1 n2 hs hn hsv hh hl
    unfold ingestFingerprint
    rw [hs, hn, hsv, hh, hl]

/-- C6 counterexample: a Prometheus payload whose service is extracted from
the `job` label and whose host is extracted from the `instance` label, yet
both `job` and `instance` remain in the resulting labels mapping — refuting
the claim that every key actually used for extraction is removed. -/
theorem C6_counterexample :
    (Prometheus.normalize
        { externalURL := none,
          alerts := [{ status := some "firing",
                       labels := [("alertname", "HighCPU"),
                                  ("instance", "web-01:9090"),
                                  ("job", "node")] }] }).map
        (fun a => (a.service, a.host, a.labels))
      = [(some "node", some "web-01",
          [("instance", "web-01:9090"), ("job", "node")])] := by
  decide

/-- C6 amended: the Prometheus normalizer removes exactly the fixed key set
`alertname, severity, priority, level, service, app, application,
environment, env, tier, stage` from the labels mapping — every output label
key is outside that set, and the output labels are precisely the input
labels of the corresponding payload alert with those keys filtered out.  The
service keys `job` and `namespace` and the host keys `instance`, `node` and
`host` are not removed even when used for extraction. -/
theorem C6_prometheus_label_removal (p : Prometheus.PromPayload)
    (a : NormalizedAlert) (hmem : a ∈ Prometheus.normalize p) :
    (∀ kv ∈ a.labels, kv.1 ∉ Prometheus.extracted_keys)
    ∧ ∃ ad ∈ p.alerts,
        a.labels = ad.labels.filter
          (fun kv => !(Prometheus.extracted_keys.contains kv.1)) := by
  simp only [Prometheus.normalize, List.mem_map] at hmem
  obtain ⟨ad, had, rfl⟩ := hmem
  have hlabels : (Prometheus.normalizeAlert ((p.externalURL).getD "") ad).labels
      = ad.labels.filter (fun kv => !(Prometheus.extracted_keys.contains kv.1)) := rfl
  refine ⟨?_, ad, had, hlabels⟩
  intro kv hkv
  rw [hlabels] at hkv
  have := List.of_mem_filter hkv
  simpa using this

/-- Witness for C6 at a concrete payload with a retained and a removed key. -/
theorem C6_witness :
    (Prometheus.normalizeAlert "" promWitAlert ∈ Prometheus.normalize promWitPayload)
    ∧ ((∀ kv ∈ (Prometheus.normalizeAlert "" promWitAlert).labels,
        kv.1 ∉ Prometheus.extracted_keys)
      ∧ ∃ ad ∈ promWitPayload.alerts,
          (Prometheus.normalizeAlert "" promWitAlert).labels
            = ad.labels.filter
              (fun kv => !(Prometheus.extracted_keys.contains kv.1))) :=
  ⟨by decide, C6_prometheus_label_removal _ _ (by decide)⟩

/-- C7 counterexample: a Splunk result whose severity field holds the
numeric value `5` normalizes to `critical` via the discrete `SEVERITY_MAP`
entry, while the claimed bucketing (`< 20 → info`) would give `info`. -/
theorem C7_counterexample :
    (Splunk.normalize { sid := some "sid1", result := [("severity", "5")] }).map
        (fun a => a.severity) = ["critical"]
    ∧ pyFloat? "5" = some 5
    ∧ claimedRiskBucket 5 = "info"
    ∧ "critical" ≠ "info" := by
  refine ⟨by decide, by decide, by decide, by decide⟩

/-- C7 amended: for every Splunk webhook payload whose highest-priority
severity-bearing field holds a numeric value that is not itself a
`SEVERITY_MAP` key (the numeric strings `"1"`..`"5"` are such keys and map
discretely instead), the normalized severity equals the claimed bucketing
`value ≥ 80 → critical, ≥ 60 → high, ≥ 40 → warning, ≥ 20 → low, else
info`. -/
theorem C7_splunk_numeric_bucketing (payload : Splunk.SplunkPayload)
    (raw : String) (q : ℚ)
    (hraw : Splunk.extract_from_result payload.result Splunk.SEVERITY_FIELD_KEYS
      = some raw)
    (hmap : Splunk.SEVERITY_MAP.lookup (pyStrip (pyLower raw)) = none)
    (hq : pyFloat? raw = some q) :
    (Splunk.normalize payload).map (fun a => a.severity) = [claimedRiskBucket q] := by
  simp [Splunk.normalize, Splunk.extract_severity, hraw, hmap, hq, claimedRiskBucket]

/-- Witness for C7 at a concrete payload with numeric severity 85. -/
theorem C7_witness :
    Splunk.extract_from_result [("severity", "85")] Splunk.SEVERITY_FIELD_KEYS
      = some "85"
    ∧ Splunk.SEVERITY_MAP.lookup (pyStrip (pyLower "85")) = none
    ∧ pyFloat? "85" = some 85
    ∧ (Splunk.normalize { sid := some "sid1", result := [("severity", "85")] }).map
        (fun a => a.severity) = [claimedRiskBucket 85] :=
  ⟨by decide, by decide, by decide,
    C7_splunk_numeric_bucketing { sid := some "sid1", result := [("severity", "85")] }
      "85" 85 (by decide) (by decide) (by decide)⟩

/-- A value produced by `mostRecentCreated` is an element of the list. -/
lemma mostRecentCreated_mem : ∀ {l : List Alert} {a : Alert},
    mostRecentCreated l = some a → a ∈ l := by
  intro l
  induction l with
  | nil => intro a h; simp [mostRecentCreated] at h
  | cons x rest ih =>
      intro a h
      cases hrec : mostRecentCreated rest with
      | none =>
          simp only [mostRecentCreated, hrec] at h
          injection h with h
          exact h ▸ List.mem_cons_self x rest
      | some b =>
          simp only [mostRecentCreated, hrec] at h
          by_cases hgt : b.created_at > x.created_at
          · rw [if_pos hgt] at h
            injection h with h
            exact List.mem_cons_of_mem x (h ▸ ih hrec)
          · rw [if_neg hgt] at h
            injection h with h
            exact h ▸ List.mem_cons_self x rest

/-- On a non-empty list all of whose elements equal `a`, `mostRecentCreated`
returns `a`. -/
lemma mostRecentCreated_const : ∀ {l : List Alert} {a : Alert}, l ≠ [] →
    (∀ x ∈ l, x = a) → mostRecentCreated l = some a := by
  intro l
  induction l with
  | nil => intro a hne _; cases hne rfl
  | cons x rest ih =>
      intro a _ hall
      have hx : x = a := hall x (List.mem_cons_self x rest)
      cases hrec : mostRecentCreated rest with
      | none => simp only [mostRecentCreated, hrec, hx]
      | some b =>
          have hb : b = a :=
            hall b (List.mem_cons_of_mem _ (mostRecentCreated_mem hrec))
          subst hx hb
          simp [mostRecentCreated, hrec]

/-- A duplicate found by `find_duplicate` is a stored alert. -/
lemma find_duplicate_mem {cfg : Settings} {s : Store} {fp : String} {now : Int}
    {a : Alert} (h : find_duplicate cfg s fp now = some a) : a ∈ s.alerts :=
  List.mem_of_mem_filter (mostRecentCreated_mem h)

/-- C1: the claim says correlation returns an `(incident, event_type)` pair
with `event_type ∈ {incident_created, severity_changed, none}` and that
ingestion then completes, dispatching notifications exactly for the first
two.  The code cannot do this: on every non-duplicate path `ingest_alert`
raises `AttributeError` (first at `normalized.runbook_url`, an attribute
`NormalizedAlert.__init__` never sets; `correlate_alert` moreover returns
the `Incident` object, not a pair, while the coordinator reads
`result.incident`/`result.event_type`).  This theorem evaluates the code at
the failing inputs: every ingest that finds no duplicate errors. -/
theorem C1_ingest_new_alert_raises (cfg : Settings) (s : Store)
    (n : NormalizedAlert) (now : Int)
    (hnodup : find_duplicate cfg s (ingestFingerprint n) now = none) :
    ingest_alert cfg s n now
      = .error (.attributeError "NormalizedAlert" "runbook_url") := by
  simp only [ingest_alert, hnodup]

/-- Witness for C1: ingesting a fresh generic alert into the empty store
raises the attribute error. -/
theorem C1_witness :
    find_duplicate {} ({} : Store) (ingestFingerprint exNorm) 0 = none
    ∧ ingest_alert {} ({} : Store) exNorm 0
        = .error (.attributeError "NormalizedAlert" "runbook_url") :=
  ⟨rfl, C1_ingest_new_alert_raises {} {} exNorm 0 rfl⟩

/-- C3: ingesting a normalized alert while the store holds a firing (or
acknowledged) alert with the same fingerprint received inside the dedup
window and `duplicate_count = 1` produces no new Alert row: the existing
row's `duplicate_count` becomes 2, its `last_received_at` is updated, a
second `AlertOccurrence` is appended, and the remaining pipeline is skipped
— status and `runbook_url` are untouched and no incident or event row
changes. -/
theorem C3_duplicate_ingest (cfg : Settings) (s : Store) (n : NormalizedAlert)
    (now : Int) (a : Alert)
    (hmem : a ∈ s.alerts)
    (hfp : a.fingerprint = ingestFingerprint n)
    (hst : a.status = .firing ∨ a.status = .acknowledged)
    (hwin : a.last_received_at ≥ now - cfg.dedup_window_seconds)
    (huniq : ∀ b ∈ s.alerts, b.fingerprint = ingestFingerprint n → b = a)
    (hdup : a.duplicate_count = 1)
    (hocc : (s.occurrences.filter (fun o => decide (o.alert_id = a.id))).length = 1) :
    ∃ r, ingest_alert cfg s n now = .ok r
      ∧ r.is_duplicate = true
      ∧ r.store.alerts.length = s.alerts.length
      ∧ r.alert.id = a.id
      ∧ r.alert.duplicate_count = 2
      ∧ r.alert.last_received_at = now
      ∧ r.alert.status = a.status
      ∧ r.alert.runbook_url = a.runbook_url
      ∧ r.store.occurrences = s.occurrences ++ [⟨a.id, now⟩]
      ∧ (r.store.occurrences.filter (fun o => decide (o.alert_id = a.id))).length = 2
      ∧ r.store.incidents = s.incidents
      ∧ r.store.events = s.events := by
  have hfd : find_duplicate cfg s (ingestFingerprint n) now = some a := by
    unfold find_duplicate
    apply mostRecentCreated_const
    · exact List.ne_nil_of_mem (List.mem_filter.mpr
        ⟨hmem, decide_eq_true ⟨hfp, hst, hwin⟩⟩)
    · intro x hx
      obtain ⟨hx1, hx2⟩ := List.mem_filter.mp hx
      exact huniq x hx1 (of_decide_eq_true hx2).1
  simp only [ingest_alert, hfd]
  refine ⟨_, rfl, rfl, ?_, rfl, ?_, rfl, rfl, rfl, rfl, ?_, rfl, rfl⟩
  · simp [updateAlert]
  · simp [process_duplicate, hdup]
  · simp only [updateAlert, List.filter_append, List.length_append, hocc]
    simp [process_duplicate]

/-- Witness for C3: re-ingesting `exNorm` at `now = 100` against the store
that already holds its alert (received at 95, inside the 300 s window). -/
theorem C3_witness :
    (exDupAlert ∈ exDupStore.alerts
      ∧ exDupAlert.fingerprint = ingestFingerprint exNorm
      ∧ (exDupAlert.status = .firing ∨ exDupAlert.status = .acknowledged)
      ∧ exDupAlert.last_received_at ≥ 100 - ({} : Settings).dedup_window_seconds
      ∧ exDupAlert.duplicate_count = 1)
    ∧ ∃ r, ingest_alert {} exDupStore exNorm 100 = .ok r
      ∧ r.is_duplicate = true
      ∧ r.store.alerts.length = exDupStore.alerts.length
      ∧ r.alert.id = exDupAlert.id
      ∧ r.alert.duplicate_count = 2
      ∧ r.alert.last_received_at = 100
      ∧ r.alert.status = exDupAlert.status
      ∧ r.alert.runbook_url = exDupAlert.runbook_url
      ∧ r.store.occurrences = exDupStore.occurrences ++ [⟨exDupAlert.id, 100⟩]
      ∧ (r.store.occurrences.filter
          (fun o => decide (o.alert_id = exDupAlert.id))).length = 2
      ∧ r.store.incidents = exDupStore.incidents
      ∧ r.store.events = exDupStore.events := by
  refine ⟨⟨List.mem_cons_self _ _, rfl, Or.inl rfl, by decide, rfl⟩, ?_⟩
  exact C3_duplicate_ingest {} exDupStore exNorm 100 exDupAlert
    (List.mem_cons_self _ _) rfl (Or.inl rfl) (by decide)
    (fun b hb _ => by simpa [exDupStore] using hb) rfl (by decide)

/-- `updateAlert` preserves the C4 invariant when the replacement row
itself satisfies it. -/
lemma alertInv_updateAlert {s : Store} {u : Alert} (hinv : AlertInv s)
    (hu : (u.status = .firing ∨ u.status = .acknowledged) → u.resolved_at = none) :
    AlertInv (updateAlert s u) := by
  intro b hb hst
  simp only [updateAlert] at hb
  obtain ⟨c, hc, rfl⟩ := List.mem_map.mp hb
  by_cases hcid : c.id = u.id
  · rw [if_pos hcid] at hst ⊢
    exact hu hst
  · rw [if_neg hcid] at hst ⊢
    exact hinv c hc hst

/-- C4 counterexample: acknowledging an already-resolved alert leaves
`resolved_at` set while the status becomes `acknowledged`, violating the
invariant the claim says every operation preserves. -/
theorem C4_counterexample :
    AlertInv cxResolvedStore
    ∧ ¬ AlertInv (acknowledge_alert cxResolvedStore 1 none 10).1 := by
  constructor
  · decide
  · decide

/-- C4 amended: every modelled public alert operation — ingest, acknowledge,
resolve, the bulk variants, incident acknowledge/resolve and archive —
preserves the invariant that a firing or acknowledged alert has null
`resolved_at`, with one forced restriction: single-alert acknowledge
preserves it only when the targeted alert's `resolved_at` is null (it does
not clear `resolved_at`, so acknowledging a resolved alert breaks the
invariant). -/
theorem C4_invariant_preservation (cfg : Settings) (s : Store)
    (n : NormalizedAlert) (now : Int) (aid : Nat) (who : Option String)
    (ids : List Nat) (iid : Nat) (days : Int)
    (hinv : AlertInv s)
    (hack : ∀ a ∈ s.alerts, a.id = aid → a.resolved_at = none) :
    (∀ r, ingest_alert cfg s n now = .ok r → AlertInv r.store)
    ∧ AlertInv (acknowledge_alert s aid who now).1
    ∧ AlertInv (resolve_alert s aid now).1
    ∧ AlertInv (bulk_acknowledge_alerts s ids who now).1
    ∧ AlertInv (bulk_resolve_alerts s ids now).1
    ∧ AlertInv (acknowledge_incident s iid who now).1
    ∧ AlertInv (resolve_incident s iid who now).1
    ∧ AlertInv (archive_alerts s days now).1 := by
  refine ⟨?_, ?_, ?_, ?_, ?_, ?_, ?_, ?_⟩
  · -- ingest: the duplicate path only bumps counters; other paths error
    intro r hr
    cases hfd : find_duplicate cfg s (ingestFingerprint n) now with
    | none => simp [ingest_alert, hfd] at hr
    | some existing =>
        simp only [ingest_alert, hfd] at hr
        injection hr with hr
        subst hr
        intro b hb hst
        have hmem := find_duplicate_mem hfd
        simp only [updateAlert] at hb
        obtain ⟨c, hc, rfl⟩ := List.mem_map.mp hb
        by_cases hcid : c.id = (process_duplicate existing now).id
        · rw [if_pos hcid] at hst ⊢
          exact hinv existing hmem hst
        · rw [if_neg hcid] at hst ⊢
          exact hinv c hc hst
  · -- acknowledge_alert (restricted to a target with null resolved_at)
    unfold acknowledge_alert
    cases hfind : s.alerts.find? (fun b => decide (b.id = aid)) with
    | none => exact hinv
    | some alert =>
        exact alertInv_updateAlert hinv (fun _ =>
          hack alert (List.mem_of_find?_eq_some hfind)
            (by simpa using List.find?_some hfind))
  · -- resolve_alert: the updated row is resolved, so the invariant is vacuous
    unfold resolve_alert
    cases hfind : s.alerts.find? (fun b => decide (b.id = aid)) with
    | none => exact hinv
    | some alert =>
        refine alertInv_updateAlert hinv (fun hst => ?_)
        rcases hst with h | h <;> simp at h
  · -- bulk acknowledge: only firing alerts are touched
    intro b hb hst
    simp only [bulk_acknowledge_alerts] at hb
    obtain ⟨c, hc, rfl⟩ := List.mem_map.mp hb
    by_cases hcond : c.id ∈ ids ∧ c.status = .firing
    · rw [if_pos hcond] at hst ⊢
      exact hinv c hc (Or.inl hcond.2)
    · rw [if_neg hcond] at hst ⊢
      exact hinv c hc hst
  · -- bulk resolve: touched alerts become resolved
    intro b hb hst
    simp only [bulk_resolve_alerts] at hb
    obtain ⟨c, hc, rfl⟩ := List.mem_map.mp hb
    by_cases hcond : c.id ∈ ids ∧ (c.status = .firing ∨ c.status = .acknowledged)
    · rw [if_pos hcond] at hst
      rcases hst with h | h <;> simp at h
    · rw [if_neg hcond] at hst ⊢
      exact hinv c hc hst
  · -- acknowledge_incident: only firing member alerts are acknowledged
    unfold acknowledge_incident
    cases hfind : s.incidents.find? (fun i => decide (i.id = iid)) with
    | none => exact hinv
    | some incident =>
        intro b hb hst
        obtain ⟨c, hc, rfl⟩ := List.mem_map.mp hb
        by_cases hcond : c.incident_id = some iid ∧ c.status = .firing
        · rw [if_pos hcond] at hst ⊢
          exact hinv c hc (Or.inl hcond.2)
        · rw [if_neg hcond] at hst ⊢
          exact hinv c hc hst
  · -- resolve_incident: touched alerts become resolved
    unfold resolve_incident
    cases hfind : s.incidents.find? (fun i => decide (i.id = iid)) with
    | none => exact hinv
    | some incident =>
        intro b hb hst
        obtain ⟨c, hc, rfl⟩ := List.mem_map.mp hb
        by_cases hcond : c.incident_id = some iid
            ∧ (c.status = .firing ∨ c.status = .acknowledged)
        · rw [if_pos hcond] at hst
          rcases hst with h | h <;> simp at h
        · rw [if_neg hcond] at hst ⊢
          exact hinv c hc hst
  · -- archive: touched alerts become archived
    intro b hb hst
    simp only [archive_alerts] at hb
    obtain ⟨c, hc, rfl⟩ := List.mem_map.mp hb
    by_cases hcond : c.status = .resolved ∧ c.archived_at = none
        ∧ ∃ r, c.resolved_at = some r ∧ r < now - days * 86400
    · rw [if_pos hcond] at hst
      rcases hst with h | h <;> simp at h
    · rw [if_neg hcond] at hst ⊢
      exact hinv c hc hst

/-- Witness for C4 (amended) on a store with one firing alert. -/
theorem C4_witness :
    (AlertInv exFiringStore
      ∧ (∀ a ∈ exFiringStore.alerts, a.id = 1 → a.resolved_at = none))
    ∧ ((∀ r, ingest_alert {} exFiringStore exNorm 10 = .ok r → AlertInv r.store)
      ∧ AlertInv (acknowledge_alert exFiringStore 1 none 10).1
      ∧ AlertInv (resolve_alert exFiringStore 1 10).1
      ∧ AlertInv (bulk_acknowledge_alerts exFiringStore [1] none 10).1
      ∧ AlertInv (bulk_resolve_alerts exFiringStore [1] 10).1
      ∧ AlertInv (acknowledge_incident exFiringStore 1 none 10).1
      ∧ AlertInv (resolve_incident exFiringStore 1 none 10).1
      ∧ AlertInv (archive_alerts exFiringStore 30 10).1) :=
  ⟨⟨by decide, by decide⟩,
    C4_invariant_preservation {} exFiringStore exNorm 10 1 none [1] 1 30
      (by decide) (by decide)⟩

/-- After replacing the row found for `aid` by a row with the same id, the
same search finds the replacement. -/
lemma find?_id_after_update {l : List Alert} {aid : Nat} {a u : Alert}
    (hfind : l.find? (fun b => decide (b.id = aid)) = some a)
    (hid : u.id = aid) :
    (l.map (fun b => if b.id = u.id then u else b)).find?
      (fun b => decide (b.id = aid)) = some u := by
  induction l with
  | nil => simp at hfind
  | cons c rest ih =>
      by_cases hc : c.id = aid
      · rw [List.map_cons, if_pos (hc.trans hid.symm)]
        exact List.find?_cons_of_pos _ (by simpa using hid)
      · rw [List.find?_cons_of_neg _ (by simpa using hc)] at hfind
        rw [List.map_cons, if_neg (fun h => hc (h.trans hid))]
        rw [List.find?_cons_of_neg _ (by simpa using hc)]
        exact ih hfind

/-- C5 counterexample: resolving the same alert at instants 10 and then 20
re-stamps `resolved_at` from 10 to 20 — the second resolve is not a no-op on
timestamps. -/
theorem C5_counterexample :
    ((resolve_alert exFiringStore 1 10).2.map (fun a => a.resolved_at)
      = some (some 10))
    ∧ ((resolve_alert (resolve_alert exFiringStore 1 10).1 1 20).2.map
        (fun a => (a.status, a.resolved_at, a.ends_at))
      = some (AlertStatus.resolved, some 20, some 20))
    ∧ (resolve_alert (resolve_alert exFiringStore 1 10).1 1 20).2.map
        (fun a => a.resolved_at)
      ≠ (resolve_alert exFiringStore 1 10).2.map (fun a => a.resolved_at) := by
  refine ⟨by decide, by decide, by decide⟩

/-- C5 amended: a second `resolve_alert` call keeps the status `resolved`
but unconditionally re-stamps `resolved_at` and `ends_at` with the second
call's instant (the first call's stamps are overwritten, not preserved). -/
theorem C5_second_resolve_restamps (s : Store) (aid : Nat) (t1 t2 : Int)
    (a1 : Alert) (h1 : (resolve_alert s aid t1).2 = some a1) :
    a1.status = .resolved ∧ a1.resolved_at = some t1 ∧ a1.ends_at = some t1
    ∧ ∃ a2, (resolve_alert (resolve_alert s aid t1).1 aid t2).2 = some a2
      ∧ a2.status = .resolved ∧ a2.resolved_at = some t2
      ∧ a2.ends_at = some t2 := by
  cases hfind : s.alerts.find? (fun b => decide (b.id = aid)) with
  | none => simp [resolve_alert, hfind] at h1
  | some alert =>
      simp only [resolve_alert, hfind] at h1
      injection h1 with h1
      subst h1
      have haid : alert.id = aid := by simpa using List.find?_some hfind
      have hfind2 := find?_id_after_update (u := { alert with
        status := AlertStatus.resolved
        resolved_at := some t1
        ends_at := some t1
        updated_at := t1 }) hfind haid
      refine ⟨rfl, rfl, rfl, ?_⟩
      simp only [resolve_alert, hfind, updateAlert, hfind2]
      exact ⟨_, rfl, rfl, rfl, rfl⟩

/-- Witness for C5 on the one-alert store. -/
theorem C5_witness :
    ((resolve_alert exFiringStore 1 10).2
      = some { exFiringAlert with
          status := AlertStatus.resolved
          resolved_at := some 10
          ends_at := some 10
          updated_at := 10 })
    ∧ (∃ a2, (resolve_alert (resolve_alert exFiringStore 1 10).1 1 20).2 = some a2
        ∧ a2.status = .resolved ∧ a2.resolved_at = some 20
        ∧ a2.ends_at = some 20) :=
  ⟨by decide,
    (C5_second_resolve_restamps exFiringStore 1 10 20
      { exFiringAlert with
        status := AlertStatus.resolved
        resolved_at := some 10
        ends_at := some 10
        updated_at := 10 } (by decide)).2.2.2⟩

/-- The `SEVERITY_ORDER` entry at a severity's index is that severity. -/
lemma sevIndex_getD : ∀ sv : Severity,
    SEVERITY_ORDER.getD (sevIndex sv) .info = sv := by
  intro sv; cases sv <;> decide

/-- Backing one step in `SEVERITY_ORDER` is the canonical predecessor. -/
lemma sevPred_canonical : ∀ sv : Severity,
    SEVERITY_ORDER.getD (sevIndex sv - 1) .info = canonicalPred sv := by
  intro sv; cases sv <;> decide

/-- `_max_severity` returns the right argument when it is strictly more
severe. -/
lemma max_severity_right {a b : Severity} (h : sevIndex a < sevIndex b) :
    max_severity a b = b := by
  unfold max_severity
  rw [Nat.max_eq_right h.le, sevIndex_getD]

/-- C9: whenever attaching an alert to an incident promotes the incident's
severity, the appended `severity_changed` event records `from` as the
immediate predecessor of the new severity in the canonical order (which can
differ from the incident's actual previous severity — `canonicalPred` of
`critical` is `high`, not e.g. `warning`) and `to` as the new severity. -/
theorem C9_severity_changed_event (alert : Alert) (incident : Incident)
    (now : Int) (hprom : sevIndex incident.severity < sevIndex alert.severity) :
    ((attach_to_incident alert incident now).2.2.map (fun e => e.event_type)
        = ["alert_added", "severity_changed"]
      ∧ ((attach_to_incident alert incident now).2.2.getLast?).bind
          (fun e => e.event_data.lookup "from")
        = some (.str (canonicalPred alert.severity).value)
      ∧ ((attach_to_incident alert incident now).2.2.getLast?).bind
          (fun e => e.event_data.lookup "to")
        = some (.str alert.severity.value)
      ∧ (attach_to_incident alert incident now).2.1.severity = alert.severity)
    ∧ (canonicalPred .critical = .high ∧ Severity.high ≠ .warning) := by
  have hmax : max_severity incident.severity alert.severity = alert.severity :=
    max_severity_right hprom
  have hne : alert.severity ≠ incident.severity := by
    intro h
    rw [h] at hprom
    exact lt_irrefl _ hprom
  have hd : decide (alert.severity ≠ incident.severity) = true := decide_eq_true hne
  refine ⟨⟨?_, ?_, ?_, ?_⟩, by decide, by decide⟩
  · simp [attach_to_incident, hmax, hd]
  · simp [attach_to_incident, hmax, hd, List.lookup]
    rw [← List.getD_eq_getElem?_getD, sevPred_canonical]
  · simp [attach_to_incident, hmax, hd, List.lookup]
  · simp [attach_to_incident, hmax, hd]

/-- Witness for C9: a critical alert promotes a warning incident; the event
records `from = high` although the incident was previously `warning`. -/
theorem C9_witness :
    sevIndex exAttachIncident.severity < sevIndex exAttachAlert.severity
    ∧ (((attach_to_incident exAttachAlert exAttachIncident 50).2.2.map
          (fun e => e.event_type) = ["alert_added", "severity_changed"]
      ∧ ((attach_to_incident exAttachAlert exAttachIncident 50).2.2.getLast?).bind
          (fun e => e.event_data.lookup "from")
        = some (.str (canonicalPred exAttachAlert.severity).value)
      ∧ ((attach_to_incident exAttachAlert exAttachIncident 50).2.2.getLast?).bind
          (fun e => e.event_data.lookup "to")
        = some (.str exAttachAlert.severity.value)
      ∧ (attach_to_incident exAttachAlert exAttachIncident 50).2.1.severity
          = exAttachAlert.severity)
      ∧ (canonicalPred .critical = .high ∧ Severity.high ≠ .warning)) :=
  ⟨by decide, C9_severity_changed_event exAttachAlert exAttachIncident 50 (by decide)⟩

/-- C8: for an active hourly schedule with non-empty members, positive
rotation interval `H`, a resolvable timezone and no active override, at any
instant at or after the first handoff the on-call user is looked up from
`members[((t − first_handoff) / (H·3600)) mod N]` (floor division), and at
any instant before the first handoff from `members[0]`. -/
theorem C8_hourly_rotation (env : OnCall.OnCallEnv) (sid : Nat)
    (schedule : OnCall.OnCallSchedule) (t t2 : Int) (H : Nat) (off : Int)
    (hfind : env.schedules.find? (fun sc =>
      decide (sc.id = sid ∧ sc.is_active = true)) = some schedule)
    (hnoov : ∀ o ∈ env.overrides,
      ¬ (o.schedule_id = schedule.id ∧ o.starts_at ≤ t ∧ o.ends_at > t))
    (hnoov2 : ∀ o ∈ env.overrides,
      ¬ (o.schedule_id = schedule.id ∧ o.starts_at ≤ t2 ∧ o.ends_at > t2))
    (hmembers : schedule.members ≠ [])
    (hrt : schedule.rotation_type = .hourly)
    (hH : schedule.rotation_interval_hours = some H)
    (hHpos : 0 < H)
    (htz : env.tzOffsets.lookup schedule.timezone = some off)
    (hdelta : ¬ (t + off - OnCall.firstHandoffWall schedule off < 0))
    (hdelta2 : t2 + off - OnCall.firstHandoffWall schedule off < 0) :
    OnCall.get_current_oncall env sid t
      = env.users.find? (fun u => decide (u.id =
          (schedule.members.getD
            ((((t + off - OnCall.firstHandoffWall schedule off) / ((H : Int) * 3600))
              % (schedule.members.length : Int)).toNat) ⟨0, 0⟩).user_id
          ∧ u.is_active = true))
    ∧ OnCall.get_current_oncall env sid t2
      = env.users.find? (fun u => decide (u.id =
          (schedule.members.getD 0 ⟨0, 0⟩).user_id ∧ u.is_active = true)) := by
  have hne : schedule.members.isEmpty = false := by
    cases hm : schedule.members with
    | nil => exact absurd hm hmembers
    | cons a as => rfl
  have hp : OnCall.pyOrNat schedule.rotation_interval_hours 1 = H := by
    rw [hH]
    simp [OnCall.pyOrNat, Nat.pos_iff_ne_zero.mp hHpos]
  constructor
  · have hov : env.overrides.filter (fun o =>
        decide (o.schedule_id = schedule.id ∧ o.starts_at ≤ t ∧ o.ends_at > t)) = [] :=
      List.filter_eq_nil_iff.mpr (fun o ho => by simpa using hnoov o ho)
    simp only [OnCall.get_current_oncall, hfind, hov, OnCall.mostRecentOverride,
      hne, Bool.false_eq_true, if_false, htz, Option.getD_some, hrt, hp,
      if_neg hdelta]
  · have hov2 : env.overrides.filter (fun o =>
        decide (o.schedule_id = schedule.id ∧ o.starts_at ≤ t2 ∧ o.ends_at > t2)) = [] :=
      List.filter_eq_nil_iff.mpr (fun o ho => by simpa using hnoov2 o ho)
    simp only [OnCall.get_current_oncall, hfind, hov2, OnCall.mostRecentOverride,
      hne, Bool.false_eq_true, if_false, htz, Option.getD_some, hrt, hp,
      if_pos hdelta2]

/-- Witness for C8: the S5 scenario — at 2025-01-01T05:30:00Z the index is
`floor(5.5/2) mod 3 = 2`, so U3 is on call; before the first handoff U1 is. -/
theorem C8_witness :
    (OnCall.get_current_oncall exOnCallEnv 1 1735709400
        = exOnCallEnv.users.find? (fun u => decide (u.id =
            (exSchedule.members.getD
              ((((1735709400 + 0 - OnCall.firstHandoffWall exSchedule 0)
                  / ((2 : Int) * 3600)) % (exSchedule.members.length : Int)).toNat)
              ⟨0, 0⟩).user_id
            ∧ u.is_active = true))
      ∧ OnCall.get_current_oncall exOnCallEnv 1 1735689500
        = exOnCallEnv.users.find? (fun u => decide (u.id =
            (exSchedule.members.getD 0 ⟨0, 0⟩).user_id ∧ u.is_active = true)))
    ∧ OnCall.get_current_oncall exOnCallEnv 1 1735709400
        = some ⟨3, true⟩
    ∧ OnCall.get_current_oncall exOnCallEnv 1 1735689500
        = some ⟨1, true⟩ := by
  have h := C8_hourly_rotation exOnCallEnv 1 exSchedule 1735709400 1735689500 2 0
    (by decide) (by simp [exOnCallEnv]) (by simp [exOnCallEnv]) (by decide)
    rfl rfl (by decide) (by decide) (by decide) (by decide)
  exact ⟨h, h.1.trans (by decide), h.2.trans (by decide)⟩

/-- Looking a key up in an appended association list skips a prefix that
does not contain it. -/
lemma lookup_append_none {α β : Type} [BEq α] {l1 l2 : List (α × β)} {k : α}
    (h : l1.lookup k = none) : (l1 ++ l2).lookup k = l2.lookup k := by
  induction l1 with
  | nil => rfl
  | cons p rest ih =>
      cases p with
      | mk a b =>
          cases hab : k == a with
          | true =>
              simp only [List.lookup, hab] at h
              exact Option.noConfusion h
          | false =>
              simp only [List.lookup, hab] at h
              rw [List.cons_append]
              simp only [List.lookup, hab]
              exact ih h

/-- C10: the cooldown stamp is written before the delivery attempt, so a
failed attempt still consumes the cooldown — a second dispatch for the same
channel and incident within `notification_cooldown_seconds` performs no send
and writes no `NotificationLog` row, even though the first attempt's log row
is `failed`. -/
theorem C10_cooldown_consumed_on_failure (cfg : Settings)
    (c : NotificationChannel) (incident : Incident) (alerts : List Alert)
    (evt1 evt2 : String) (out1 out2 : Nat → Option String) (err : String)
    (t1 t2 : Int) (st0 : DispatchState)
    (hactive : c.is_active = true)
    (hmatch : matches_filters c incident alerts = true)
    (hcache : st0.cache.lookup (c.id, incident.id) = none)
    (hfail : out1 c.id = some err)
    (hcool : t2 - t1 < cfg.notification_cooldown_seconds) :
    (dispatch_notifications cfg [c] incident alerts evt1 out1 t1 st0).logs
      = st0.logs ++ [failedLog c incident evt1 err]
    ∧ (dispatch_notifications cfg [c] incident alerts evt1 out1 t1 st0).sends
      = st0.sends ++ [c.id]
    ∧ (dispatch_notifications cfg [c] incident alerts evt2 out2 t2
        (dispatch_notifications cfg [c] incident alerts evt1 out1 t1 st0)).logs
      = (dispatch_notifications cfg [c] incident alerts evt1 out1 t1 st0).logs
    ∧ (dispatch_notifications cfg [c] incident alerts evt2 out2 t2
        (dispatch_notifications cfg [c] incident alerts evt1 out1 t1 st0)).sends
      = (dispatch_notifications cfg [c] incident alerts evt1 out1 t1 st0).sends := by
  have hisSome : (st0.cache.lookup (c.id, incident.id)).isSome = false := by
    rw [hcache]
    rfl
  have hst1 : dispatch_notifications cfg [c] incident alerts evt1 out1 t1 st0
      = { cache := st0.cache ++ [((c.id, incident.id), t1)]
          logs := st0.logs ++ [failedLog c incident evt1 err]
          sends := st0.sends ++ [c.id] } := by
    simp only [dispatch_notifications, List.filter, hactive, List.foldl,
      dispatchChannel, hmatch, Bool.not_true, if_false, check_rate_limit,
      hcache, cacheSet, hisSome, hfail, failedLog]
    simp
  have hlk : ((st0.cache ++ [((c.id, incident.id), t1)]).lookup
      (c.id, incident.id)) = some t1 := by
    rw [lookup_append_none hcache]
    simp [List.lookup]
  refine ⟨by rw [hst1], by rw [hst1], ?_, ?_⟩ <;>
    · rw [hst1]
      simp only [dispatch_notifications, List.filter, hactive, List.foldl,
        dispatchChannel, hmatch, Bool.not_true, if_false, check_rate_limit,
        hlk, if_pos hcool]
      simp

/-- Witness for C10: a failing Slack send at `t = 0`, redispatched at
`t = 30` with the default 300 s cooldown. -/
theorem C10_witness :
    (matches_filters exChannel exAttachIncident [] = true
      ∧ (30 : Int) - 0 < ({} : Settings).notification_cooldown_seconds)
    ∧ ((dispatch_notifications {} [exChannel] exAttachIncident [] "incident_created"
          (fun _ => some "boom") 0 {}).logs
        = ({} : DispatchState).logs
            ++ [failedLog exChannel exAttachIncident "incident_created" "boom"]
      ∧ (dispatch_notifications {} [exChannel] exAttachIncident [] "incident_created"
          (fun _ => some "boom") 0 {}).sends = ({} : DispatchState).sends ++ [exChannel.id]
      ∧ (dispatch_notifications {} [exChannel] exAttachIncident [] "severity_changed"
          (fun _ => none) 30
          (dispatch_notifications {} [exChannel] exAttachIncident [] "incident_created"
            (fun _ => some "boom") 0 {})).logs
        = (dispatch_notifications {} [exChannel] exAttachIncident [] "incident_created"
            (fun _ => some "boom") 0 {}).logs
      ∧ (dispatch_notifications {} [exChannel] exAttachIncident [] "severity_changed"
          (fun _ => none) 30
          (dispatch_notifications {} [exChannel] exAttachIncident [] "incident_created"
            (fun _ => some "boom") 0 {})).sends
        = (dispatch_notifications {} [exChannel] exAttachIncident [] "incident_created"
            (fun _ => some "boom") 0 {}).sends) :=
  ⟨⟨by decide, by decide⟩,
    C10_cooldown_consumed_on_failure {} exChannel exAttachIncident []
      "incident_created" "severity_changed" (fun _ => some "boom") (fun _ => none)
      "boom" 0 30 {} rfl (by decide) rfl rfl (by decide)⟩

/-- Witness for C2 at a concrete input: permuted two-entry label mappings. -/
theorem C2_witness :
    ([("b", "2"), ("a", "1")] : List (String × String)).Perm [("a", "1"), ("b", "2")]
    ∧ ((generate_fingerprint "prometheus" "HighCPU" (some "api") (some "web-01")
          none [("b", "2"), ("a", "1")]).length = 16
      ∧ (∀ c ∈ (generate_fingerprint "prometheus" "HighCPU" (some "api") (some "web-01")
            none [("b", "2"), ("a", "1")]).data, c ∈ hexDigitChars)
      ∧ generate_fingerprint "prometheus" "HighCPU" (some "api") (some "web-01")
            none [("b", "2"), ("a", "1")]
          = generate_fingerprint "prometheus" "HighCPU" (some "api") (some "web-01")
            (some "critical") [("a", "1"), ("b", "2")]
      ∧ (∀ n1 n2 : NormalizedAlert, n1.source = n2.source → n1.name = n2.name →
          n1.service = n2.service → n1.host = n2.host → n1.labels = n2.labels →
          ingestFingerprint n1 = ingestFingerprint n2)) :=
  ⟨by decide, C2_generate_fingerprint_properties "prometheus" "HighCPU" (some "api")
    (some "web-01") none (some "critical") [("b", "2"), ("a", "1")]
    [("a", "1"), ("b", "2")] (by decide)⟩

end Solace
